import Mathlib

/-!
Shallow embedding of the Glasgow debug tool FX2 firmware control path
(firmware/main.c, dac_ldo.c, fpga.c, adc_adc081c.c, pull.c), together with
theorems about the host-visible contract of the command dispatcher, the
voltage-ceiling safety logic, the FPGA configuration channel, the status
latch and the alert supervisor.

Machine integers are modelled as `Nat` with explicit reduction modulo
2^8 / 2^16 where the C code relies on unsigned wraparound (SDCC for the
8051 has 16-bit `int`, so `uint16_t` arithmetic wraps at 2^16).
External collaborators (the I2C bus, the two EEPROMs, the analog
monitors of the revC2 variant, USB descriptor contents) are supplied by
an explicit environment record; fallible external transactions are
gated on oracle fields of that environment.
-/

namespace Glasgow

/-- Reduce to 8 bits, as assignment to `uint8_t` does. -/
def u8 (x : Nat) : Nat := x % 256

/-- Reduce to 16 bits, as `uint16_t` arithmetic does. -/
def u16 (x : Nat) : Nat := x % 65536

/-- 16-bit unsigned subtraction `a - b` with C wraparound semantics. -/
def sub16 (a b : Nat) : Nat := (a + 65536 - b % 65536) % 65536

/-- Little-endian decode of the first two bytes of an EP0 payload,
matching a `uint16_t` read of `EP0BUF` on the little-endian SDCC target. -/
def le16 (bytes : List Nat) : Nat := u8 (bytes.getD 0 0) + 256 * u8 (bytes.getD 1 0)

-- Status bits (main.c).
def ST_ERROR    : Nat := 1
def ST_FPGA_RDY : Nat := 2
def ST_ALERT    : Nat := 4

-- Board revisions (glasgow.h).
def GLASGOW_REV_A  : Nat := 0x10
def GLASGOW_REV_B  : Nat := 0x20
def GLASGOW_REV_C0 : Nat := 0x30
def GLASGOW_REV_C1 : Nat := 0x31
def GLASGOW_REV_C2 : Nat := 0x32
def GLASGOW_REV_C3 : Nat := 0x33
def GLASGOW_REV_NA : Nat := 0xF9

-- API compatibility level (glasgow.h).
def CUR_API_LEVEL : Nat := 0x04

-- I2C addresses (glasgow.h). The build system resolves I2C_ADDR_IOA_DAC to
-- the revision-appropriate constant; which nonzero value it takes does not
-- affect any modelled behaviour.
def I2C_ADDR_FPGA    : Nat := 0b0001000
def I2C_ADDR_FX2_MEM : Nat := 0b1010001
def I2C_ADDR_ICE_MEM : Nat := 0b1010010
def I2C_ADDR_IOA_DAC : Nat := 0b0001100
def I2C_ADDR_IOB_DAC : Nat := 0b0001101
def I2C_ADDR_ALL_DAC : Nat := 0b1001000
def I2C_ADDR_IOA_ADC : Nat := 0b1010100
def I2C_ADDR_IOB_ADC : Nat := 0b1010101

-- I/O buffer selectors (glasgow.h).
def IO_BUF_A   : Nat := 1
def IO_BUF_B   : Nat := 2
def IO_BUF_ALL : Nat := 3

-- I/O buffer voltage range in millivolts (glasgow.h).
def MIN_VOLTAGE : Nat := 1650
def MAX_VOLTAGE : Nat := 5500

def BITSTREAM_ID_SIZE : Nat := 16

-- Vendor request codes (main.c).
def USB_REQ_API_LEVEL    : Nat := 0x0F
def USB_REQ_EEPROM       : Nat := 0x10
def USB_REQ_FPGA_CFG     : Nat := 0x11
def USB_REQ_STATUS       : Nat := 0x12
def USB_REQ_REGISTER     : Nat := 0x13
def USB_REQ_IO_VOLT      : Nat := 0x14
def USB_REQ_SENSE_VOLT   : Nat := 0x15
def USB_REQ_ALERT_VOLT   : Nat := 0x16
def USB_REQ_POLL_ALERT   : Nat := 0x17
def USB_REQ_BITSTREAM_ID : Nat := 0x18
def USB_REQ_IOBUF_ENABLE : Nat := 0x19
def USB_REQ_LIMIT_VOLT   : Nat := 0x1A
def USB_REQ_PULL         : Nat := 0x1B
def USB_REQ_CYPRESS_EEPROM_DB : Nat := 0xA9
def USB_REQ_LIBFX2_PAGE_SIZE  : Nat := 0xB0
def USB_REQ_GET_MS_DESCRIPTOR : Nat := 0xC0

-- bmRequestType values for vendor requests to the device.
def VENDOR_OUT : Nat := 0x40
def VENDOR_IN  : Nat := 0xC0

-- ADC081C register model bits (adc_adc081c.c).
def ADC081_BIT_ALERT_PIN_EN : Nat := 1 <<< 2
def ADC081_BIT_ALERT_HOLD   : Nat := 1 <<< 4

/-- Persisted identity-and-calibration record (`struct glasgow_config`,
glasgow.h). `voltage_limit` holds the per-port voltage ceilings in
millivolts, port A first. -/
structure GlasgowConfig where
  revision : Nat
  serial : List Nat
  bitstream_size : Nat
  bitstream_id : List Nat
  voltage_limit : Nat × Nat
  manufacturer : List Nat
  flags : Nat
deriving DecidableEq

/-- Per-port hardware state: the LDO enable pin (ENVA/ENVB in IOD), the
12-bit code word held by the port DAC, and the registers of the port
ADC081C monitor and TCA9534 pull expander. -/
structure PortState where
  ldo_on : Bool
  dac_code : Nat
  adc_alerted : Bool
  adc_config : Nat
  adc_low_code : Nat
  adc_high_code : Nat
  pull_output : Nat
  pull_config : Nat
deriving DecidableEq

/-- Firmware state visible to the modelled code: the globals of main.c
(`pending_setup`, `status`, `bitstream_idx`, `glasgow_config`), the two
port peripherals, the alert arm flag (EX0), the FPGA CDONE input line and
the `fpga_reg_pipe_rst` shadow register, plus the revAB output-enable pin. -/
structure FwState where
  pending_setup : Bool
  status : Nat
  bitstream_idx : Nat
  glasgow_config : GlasgowConfig
  portA : PortState
  portB : PortState
  armed_alert : Bool
  cdone : Bool
  fpga_reg_pipe_rst : Nat
  oeq_n : Bool
deriving DecidableEq

/-- External collaborators: success/failure oracles for I2C and EEPROM
transactions and contents supplied by devices the firmware only reads. -/
structure Env where
  i2c_ok : Bool
  eeprom_read_ok : Nat → Nat → Nat → Bool
  eeprom_write_ok : Nat → Nat → Nat → Bool
  eeprom_bytes : Nat → Nat → Nat → List Nat
  adc_conv_code : Nat → Nat
  fpga_reg_data : Nat → List Nat
  ina233_measure : Nat → Option Nat
  ina233_get_alert : Nat → Option (Nat × Nat)
  ina233_init_ok : Bool
  ms_ext_compat_id : List Nat

/-- A decoded SETUP packet (`struct usb_req_setup`). -/
structure UsbReq where
  bmRequestType : Nat
  bRequest : Nat
  wValue : Nat
  wIndex : Nat
  wLength : Nat
deriving DecidableEq

/-- Field bounds guaranteed by the 8-byte SETUP packet encoding. -/
def UsbReq.wf (r : UsbReq) : Prop :=
  r.bmRequestType < 256 ∧ r.bRequest < 256 ∧ r.wValue < 65536 ∧
  r.wIndex < 65536 ∧ r.wLength < 65536

-- Status latch (main.c). The ERR LED mirror is indicator glue outside the
-- modelled state.

/-- `latch_status_bit`: set a status bit. -/
def latch_status_bit (s : FwState) (bit : Nat) : FwState :=
  { s with status := s.status ||| bit }

/-- `reset_status_bit`: clear a status bit if it was set. -/
def reset_status_bit (s : FwState) (bit : Nat) : FwState :=
  if s.status &&& bit ≠ 0 then { s with status := s.status &&& (255 ^^^ bit) } else s

/-- `handle_usb_setup` (main.c): admission of a SETUP request from the USB
interrupt path. Returns the new state and whether EP0 was stalled. -/
def handle_usb_setup (s : FwState) : FwState × Bool :=
  if s.pending_setup then (s, true)
  else ({ s with pending_setup := true }, false)

-- DAC/LDO driver (dac_ldo.c).

/-- `dac_start` (dac_ldo.c): resolve a port mask to a DAC I2C address; zero
means no valid target. The broadcast address is write-only. -/
def dac_start_addr (mask : Nat) (read : Bool) : Nat :=
  if mask = IO_BUF_A then I2C_ADDR_IOA_DAC
  else if mask = IO_BUF_B then I2C_ADDR_IOB_DAC
  else if mask = IO_BUF_ALL then (if read then 0 else I2C_ADDR_ALL_DAC)
  else 0

/-- Success of `dac_start`: the address must resolve and the I2C start must
be acknowledged. -/
def dac_start (env : Env) (mask : Nat) (read : Bool) : Bool :=
  if dac_start_addr mask read = 0 then false else env.i2c_ok

/-- The DAC code word computed by `iobuf_set_voltage` (dac_ldo.c):
`(254 << 4) - ((((millivolts - 1650) >> 4) * 269) >> 4)` in `uint16_t`
arithmetic. Callers establish 1650 ≤ millivolts ≤ 5500. -/
def mv_to_dac_code (millivolts : Nat) : Nat :=
  sub16 (254 <<< 4) ((u16 (u16 (millivolts - 1650) >>> 4) * 269) >>> 4)

/-- The millivolt value computed by `iobuf_get_voltage` (dac_ldo.c) from a
DAC code word: `1650 + (255 - (code_word >> 4)) * 152 / 10` in `uint16_t`
arithmetic. -/
def dac_code_to_mv (code_word : Nat) : Nat :=
  u16 (1650 + u16 (sub16 255 (u16 code_word >>> 4) * 152) / 10)

/-- Write `ldo_on` for every port selected by `mask` (the ENVA/ENVB pin
update of `iobuf_set_voltage`). -/
def write_ldo_pins (s : FwState) (mask : Nat) (enable : Bool) : FwState :=
  let s := if mask &&& IO_BUF_A ≠ 0 then { s with portA.ldo_on := enable } else s
  if mask &&& IO_BUF_B ≠ 0 then { s with portB.ldo_on := enable } else s

/-- Store a DAC code word into every port DAC addressed by `mask`
(the broadcast address reaches both DACs). -/
def write_dac_code (s : FwState) (mask : Nat) (code : Nat) : FwState :=
  let s := if mask &&& IO_BUF_A ≠ 0 then { s with portA.dac_code := code } else s
  if mask &&& IO_BUF_B ≠ 0 then { s with portB.dac_code := code } else s

/-- `iobuf_set_voltage` (dac_ldo.c). Returns the C function's success flag
and the updated state. A failed I2C transaction leaves the DAC and the LDO
pins untouched, since the pins are only driven after the full transaction
succeeds. -/
def iobuf_set_voltage (env : Env) (s : FwState) (mask millivolts : Nat) :
    Bool × FwState :=
  if mask &&& IO_BUF_A ≠ 0 ∧ millivolts > s.glasgow_config.voltage_limit.1 then (false, s)
  else if mask &&& IO_BUF_B ≠ 0 ∧ millivolts > s.glasgow_config.voltage_limit.2 then (false, s)
  else if millivolts = 0 then (true, write_ldo_pins s mask false)
  else if millivolts < MIN_VOLTAGE ∨ millivolts > MAX_VOLTAGE then (false, s)
  else if ¬ dac_start env mask false then (false, s)
  else
    let code := mv_to_dac_code millivolts
    (true, write_ldo_pins (write_dac_code s mask code) mask true)

/-- `iobuf_get_voltage` (dac_ldo.c). Pure read: `none` models returning
`false` through the C interface. -/
def iobuf_get_voltage (env : Env) (s : FwState) (selector : Nat) : Option Nat :=
  if selector = IO_BUF_A then
    if ¬ s.portA.ldo_on then some 0
    else if ¬ dac_start env selector true then none
    else some (dac_code_to_mv s.portA.dac_code)
  else if selector = IO_BUF_B then
    if ¬ s.portB.ldo_on then some 0
    else if ¬ dac_start env selector true then none
    else some (dac_code_to_mv s.portB.dac_code)
  else none

/-- Record a new voltage ceiling for the buffer with table index `idx`
(`glasgow_config.voltage_limit[buffer->index] = millivolts`). -/
def record_voltage_limit (s : FwState) (idx millivolts : Nat) : FwState :=
  if idx = 0 then
    { s with glasgow_config.voltage_limit := (millivolts, s.glasgow_config.voltage_limit.2) }
  else
    { s with glasgow_config.voltage_limit := (s.glasgow_config.voltage_limit.1, millivolts) }

/-- The static `buffers` table of dac_ldo.c: selector and index per port. -/
def dac_ldo_buffers : List (Nat × Nat) := [(IO_BUF_A, 0), (IO_BUF_B, 1)]

/-- Body of the `iobuf_set_voltage_limit` loop over `buffers`: for each
selected port, read the present voltage, force it down to the new ceiling
when it is above it, and only then record the ceiling. -/
def set_voltage_limit_loop (env : Env) (mask millivolts : Nat) :
    List (Nat × Nat) → FwState → Bool × FwState
  | [], s => (true, s)
  | (selector, idx) :: rest, s =>
    if mask &&& selector ≠ 0 then
      match iobuf_get_voltage env s selector with
      | none => (false, s)
      | some curr_millivolts =>
        if millivolts < curr_millivolts then
          match iobuf_set_voltage env s selector millivolts with
          | (false, s) => (false, s)
          | (true, s) =>
            set_voltage_limit_loop env mask millivolts rest (record_voltage_limit s idx millivolts)
        else
          set_voltage_limit_loop env mask millivolts rest (record_voltage_limit s idx millivolts)
    else set_voltage_limit_loop env mask millivolts rest s

/-- `iobuf_set_voltage_limit` (dac_ldo.c). -/
def iobuf_set_voltage_limit (env : Env) (s : FwState) (mask millivolts : Nat) :
    Bool × FwState :=
  if millivolts ≠ 0 ∧ (millivolts < MIN_VOLTAGE ∨ millivolts > MAX_VOLTAGE) then (false, s)
  else set_voltage_limit_loop env mask millivolts dac_ldo_buffers s

/-- `iobuf_get_voltage_limit` (dac_ldo.c). -/
def iobuf_get_voltage_limit (s : FwState) (selector : Nat) : Option Nat :=
  if selector = IO_BUF_A then some s.glasgow_config.voltage_limit.1
  else if selector = IO_BUF_B then some s.glasgow_config.voltage_limit.2
  else none

/-- `iobuf_enable` (dac_ldo.c): drive the revAB output-enable pin. -/
def iobuf_enable (s : FwState) (enable : Bool) : FwState :=
  { s with oeq_n := ¬ enable }

-- ADC081C driver (adc_adc081c.c).

/-- `code_bytes_to_millivolts_adc081c`: `(code_word >> 4) * 259 / 10` in
`uint16_t` arithmetic. -/
def code_bytes_to_millivolts_adc081c (code_word : Nat) : Nat :=
  u16 ((u16 code_word >>> 4) * 259) / 10

/-- `millivolts_to_code_bytes_adc081c`: `(millivolts * 10 / 259) << 4` in
`uint16_t` arithmetic. -/
def millivolts_to_code_bytes_adc081c (millivolts : Nat) : Nat :=
  u16 ((u16 (millivolts * 10) / 259) <<< 4)

/-- The static `buffers` table of adc_adc081c.c: selector and I2C address. -/
def adc081c_buffers : List (Nat × Nat) :=
  [(IO_BUF_A, I2C_ADDR_IOA_ADC), (IO_BUF_B, I2C_ADDR_IOB_ADC)]

/-- Fetch the port record addressed by an adc_adc081c.c buffer selector. -/
def port_of (s : FwState) (selector : Nat) : PortState :=
  if selector = IO_BUF_A then s.portA else s.portB

/-- Replace the port record addressed by a buffer selector. -/
def set_port (s : FwState) (selector : Nat) (p : PortState) : FwState :=
  if selector = IO_BUF_A then { s with portA := p } else { s with portB := p }

/-- `iobuf_measure_voltage_adc081c`: read the conversion-result register of
the selected monitor and convert it to millivolts. -/
def iobuf_measure_voltage_adc081c (env : Env) (selector : Nat) : Option Nat :=
  match adc081c_buffers.find? (fun b => selector = b.1) with
  | none => none
  | some (_, address) =>
    if ¬ env.i2c_ok then none
    else some (code_bytes_to_millivolts_adc081c (env.adc_conv_code address))

/-- Loop body of `iobuf_set_alert_adc081c`: program the limit registers,
clear the alert status (writing both range bits) and write the control
byte into every selected monitor. -/
def set_alert_loop (env : Env) (mask low_code high_code control : Nat) :
    List (Nat × Nat) → FwState → Bool × FwState
  | [], s => (true, s)
  | (selector, _) :: rest, s =>
    if mask &&& selector ≠ 0 then
      if ¬ env.i2c_ok then (false, s)
      else
        let p := port_of s selector
        let p := { p with adc_low_code := low_code, adc_high_code := high_code,
                          adc_alerted := false, adc_config := control }
        set_alert_loop env mask low_code high_code control rest (set_port s selector p)
    else set_alert_loop env mask low_code high_code control rest s

/-- `iobuf_set_alert_adc081c` (adc_adc081c.c). The sentinel pair
low = 0, high = MAX_VOLTAGE disables alerting (all-zero control byte and
full-scale limit codes). -/
def iobuf_set_alert_adc081c (env : Env) (s : FwState)
    (mask low_millivolts high_millivolts : Nat) : Bool × FwState :=
  if low_millivolts > MAX_VOLTAGE ∨ high_millivolts > MAX_VOLTAGE then (false, s)
  else
    let disabled := low_millivolts = 0 ∧ high_millivolts = MAX_VOLTAGE
    let low_code := if disabled then 0x0000 else millivolts_to_code_bytes_adc081c low_millivolts
    let high_code := if disabled then 0x0ff0 else millivolts_to_code_bytes_adc081c high_millivolts
    let control := if disabled then 0
      else ADC081_BIT_ALERT_PIN_EN ||| ADC081_BIT_ALERT_HOLD ||| (0b110 <<< 5)
    set_alert_loop env mask low_code high_code control adc081c_buffers s

/-- `iobuf_get_alert_adc081c` (adc_adc081c.c): an all-zero control byte
reads back as the disabled sentinel pair, otherwise the stored limit codes
are decoded. -/
def iobuf_get_alert_adc081c (env : Env) (s : FwState) (selector : Nat) :
    Option (Nat × Nat) :=
  match adc081c_buffers.find? (fun b => selector = b.1) with
  | none => none
  | some _ =>
    if ¬ env.i2c_ok then none
    else
      let p := port_of s selector
      if p.adc_config = 0 then some (0, MAX_VOLTAGE)
      else some (code_bytes_to_millivolts_adc081c p.adc_low_code,
                 code_bytes_to_millivolts_adc081c p.adc_high_code)

/-- Loop body of `iobuf_poll_alert_adc081c`. Accumulates the alerted-port
mask; with `clear` set the held alert is cleared (read of the status
register) and the alert pin re-enabled, otherwise the alert pin is
disarmed so other monitors can be distinguished. -/
def poll_alert_loop (env : Env) (clear : Bool) :
    List (Nat × Nat) → Nat → FwState → Bool × Nat × FwState
  | [], mask, s => (true, mask, s)
  | (selector, _) :: rest, mask, s =>
    if ¬ env.i2c_ok then (false, mask, s)
    else
      let p := port_of s selector
      if p.adc_alerted then
        let mask := mask ||| selector
        let p := if clear then
            { p with adc_alerted := false,
                     adc_config := p.adc_config ||| ADC081_BIT_ALERT_PIN_EN }
          else { p with adc_config := p.adc_config &&& (255 ^^^ ADC081_BIT_ALERT_PIN_EN) }
        poll_alert_loop env clear rest mask (set_port s selector p)
      else poll_alert_loop env clear rest mask s

/-- `iobuf_poll_alert_adc081c` (adc_adc081c.c). Returns the C success flag,
the alerted-port mask written through the out-parameter, and the state. -/
def iobuf_poll_alert_adc081c (env : Env) (s : FwState) (clear : Bool) :
    Bool × Nat × FwState :=
  poll_alert_loop env clear adc081c_buffers 0 s

-- Pull resistor driver (pull.c).

/-- `iobuf_set_pull` (pull.c): write the level into the expander output
register, then the complemented enable mask into its configuration
register. -/
def iobuf_set_pull (env : Env) (s : FwState) (selector enable level : Nat) :
    Bool × FwState :=
  if selector ≠ IO_BUF_A ∧ selector ≠ IO_BUF_B then (false, s)
  else if ¬ env.i2c_ok then (false, s)
  else
    let p := port_of s selector
    let p := { p with pull_output := u8 level, pull_config := u8 (255 - u8 enable) }
    (true, set_port s selector p)

/-- `iobuf_get_pull` (pull.c): read back (enable, level); the configuration
register is complemented on the way out. -/
def iobuf_get_pull (env : Env) (s : FwState) (selector : Nat) :
    Option (Nat × Nat) :=
  if selector ≠ IO_BUF_A ∧ selector ≠ IO_BUF_B then none
  else if ¬ env.i2c_ok then none
  else
    let p := port_of s selector
    some (u8 (255 - u8 p.pull_config), p.pull_output)

-- FPGA configuration channel (fpga.c).

/-- `fpga_is_ready` (fpga.c): the CDONE input line, sampled live. The ICE
LED mirror is indicator glue outside the modelled state. -/
def fpga_is_ready (s : FwState) : Bool := s.cdone

/-- `fpga_reset` (fpga.c): on revC hardware the output voltage is cut
before the reset pulse; on revAB only the reset line is pulsed. Reset
line timing and the FIFO bus configuration are below the modelled
interface. -/
def fpga_reset (env : Env) (s : FwState) : FwState :=
  let r := s.glasgow_config.revision
  if r = GLASGOW_REV_A ∨ r = GLASGOW_REV_B then s
  else if r = GLASGOW_REV_C0 ∨ r = GLASGOW_REV_C1 ∨ r = GLASGOW_REV_C2 ∨ r = GLASGOW_REV_C3 then
    (iobuf_set_voltage env s IO_BUF_ALL 0).2
  else s

/-- `fpga_load` (fpga.c): bit-banged shift of a buffer into the
configuration link; no firmware-visible state changes. -/
def fpga_load (s : FwState) : FwState := s

/-- The per-chunk transfer loop of the FPGA_CFG request handler: chunks of
at most 64 bytes are shifted until the request length is exhausted. -/
def fpga_cfg_load_loop (s : FwState) (len : Nat) : FwState :=
  if len = 0 then s
  else
    let chunk_len := if len < 64 then len else 64
    fpga_cfg_load_loop (fpga_load s) (len - chunk_len)
termination_by len
decreasing_by
  split <;> omega

/-- `fpga_start` (fpga.c): release the configuration link, re-enable the
FIFO bus, reset the pipe-reset shadow register and return the live
readiness signal. -/
def fpga_start (s : FwState) : Bool × FwState :=
  let s := { s with fpga_reg_pipe_rst := 0b1111 }
  (fpga_is_ready s, s)

/-- `fpga_reg_select` (fpga.c): an I2C address phase with no modelled
state; succeeds when the bus transaction is acknowledged. -/
def fpga_reg_select (env : Env) : Bool := env.i2c_ok

/-- `fpga_reg_read` (fpga.c): read a byte range from the selected FPGA
register; the FPGA is an external collaborator, so its registers are
supplied by the environment. -/
def fpga_reg_read (env : Env) (length : Nat) : Option (List Nat) :=
  if env.i2c_ok then some (env.fpga_reg_data length) else none

/-- `fpga_reg_write` (fpga.c): write a byte range to the selected FPGA
register; the payload disappears into the collaborator. -/
def fpga_reg_write (env : Env) : Bool := env.i2c_ok

-- Alert supervisor (main.c).

/-- `isr_IE0` (main.c): the level-triggered alert interrupt disarms itself
(EX0, aliased `armed_alert`) and does nothing else. -/
def isr_IE0 (s : FwState) : FwState := { s with armed_alert := false }

/-- `handle_pending_alert` (main.c): in main-loop context, latch the sticky
ALERT bit, poll which monitors raised the alert without clearing it, force
the alerted ports' output voltage to zero, and re-arm the interrupt. -/
def handle_pending_alert (env : Env) (s : FwState) : FwState :=
  let s := latch_status_bit s ST_ALERT
  let (_, mask, s) := iobuf_poll_alert_adc081c env s false
  let (_, s) := iobuf_set_voltage env s mask 0
  { s with armed_alert := true }

-- Command dispatcher (handle_pending_usb_setup, main.c).

/-- One EEPROM transaction attempted by the dispatcher: direction, I2C chip
address, start address, byte count and the page-size exponent passed to the
write primitive (6 encodes 64-byte pages, 8 encodes 256-byte pages). -/
structure EOp where
  is_write : Bool
  chip : Nat
  addr : Nat
  len : Nat
  page_size : Nat
deriving DecidableEq

/-- The chunked EEPROM transfer loop of the EEPROM request handler: chunks
of at most 64 bytes, address advancing with `uint16_t` wraparound, aborting
with a stall at the first failed transaction. Returns the transactions
attempted, the bytes returned to the host (for reads) and the stall flag. -/
def eeprom_chunks (env : Env) (is_write : Bool) (chip page_size addr len : Nat) :
    List EOp × List Nat × Bool :=
  if len = 0 then ([], [], false)
  else
    let chunk_len := if len < 64 then len else 64
    let op : EOp := ⟨is_write, chip, addr, chunk_len, page_size⟩
    let ok := if is_write then env.eeprom_write_ok chip addr chunk_len
      else env.eeprom_read_ok chip addr chunk_len
    if ok then
      let rest := eeprom_chunks env is_write chip page_size (u16 (addr + chunk_len)) (len - chunk_len)
      (op :: rest.1,
       (if is_write then [] else env.eeprom_bytes chip addr chunk_len) ++ rest.2.1,
       rest.2.2)
    else ([op], [], true)
termination_by len
decreasing_by
  split <;> omega

/-- Outcome of one dispatcher invocation: the state when control returns to
the main loop, whether EP0 was stalled, the bytes sent to the host over the
IN data phase, and the EEPROM transactions attempted. -/
structure DispatchResult where
  st : FwState
  stalled : Bool
  host_bytes : List Nat
  eeprom_ops : List EOp
deriving DecidableEq

/-- Chip selector resolution of the EEPROM request handler
(USB_REQ_EEPROM / USB_REQ_CYPRESS_EEPROM_DB): yields chip address (zero
meaning invalid), page-size exponent, and effective start address.
Selector 3 is remapped to the top 4 KiB of the FX2 EEPROM only when the
whole transfer fits below offset 0x1000. -/
def eeprom_target (req : UsbReq) : Nat × Nat × Nat :=
  if req.bRequest = USB_REQ_CYPRESS_EEPROM_DB then (I2C_ADDR_FX2_MEM, 0, req.wValue)
  else if req.wIndex = 0 then (I2C_ADDR_FX2_MEM, 6, req.wValue)
  else if req.wIndex = 1 then (I2C_ADDR_ICE_MEM, 8, req.wValue)
  else if req.wIndex = 2 then (I2C_ADDR_ICE_MEM + 1, 8, req.wValue)
  else if req.wIndex = 3 then
    (if req.wValue ≤ 0x1000 ∧ req.wLength ≤ 0x1000 ∧ u16 (req.wValue + req.wLength) ≤ 0x1000
     then (I2C_ADDR_FX2_MEM, 6, u16 (req.wValue + 0x7000))
     else (0, 0, req.wValue))
  else (0, 0, req.wValue)

/-- `handle_pending_usb_setup` (main.c): the main-loop command processor.
`ep0` is the OUT data phase payload supplied by the host. Each recognized
request clears `pending_setup` as soon as it is parsed; the final
fall-through stall does not. -/
def handle_pending_usb_setup (env : Env) (s : FwState) (req : UsbReq) (ep0 : List Nat) :
    DispatchResult :=
  -- libfx2 page-size request: acknowledged and ignored
  if req.bmRequestType = VENDOR_OUT ∧ req.bRequest = USB_REQ_LIBFX2_PAGE_SIZE then
    ⟨{ s with pending_setup := false }, false, [], []⟩
  -- EEPROM read/write requests
  else if (req.bmRequestType = VENDOR_IN ∨ req.bmRequestType = VENDOR_OUT) ∧
      (req.bRequest = USB_REQ_CYPRESS_EEPROM_DB ∨ req.bRequest = USB_REQ_EEPROM) then
    let arg_read := req.bmRequestType &&& 0x80 ≠ 0
    let target := eeprom_target req
    let s := { s with pending_setup := false }
    if target.1 = 0 then ⟨s, true, [], []⟩
    else
      let r := eeprom_chunks env (decide ¬ arg_read) target.1 target.2.1 target.2.2 req.wLength
      ⟨s, r.2.2, r.2.1, r.1⟩
  -- FPGA register read/write requests
  else if (req.bmRequestType = VENDOR_IN ∨ req.bmRequestType = VENDOR_OUT) ∧
      req.bRequest = USB_REQ_REGISTER then
    let arg_read := req.bmRequestType &&& 0x80 ≠ 0
    let s := { s with pending_setup := false }
    if fpga_reg_select env then
      if arg_read then
        match fpga_reg_read env req.wLength with
        | some bytes => ⟨s, false, bytes, []⟩
        | none => ⟨s, true, [], []⟩
      else
        -- the register write's success flag is discarded by the C code
        ⟨s, false, [], []⟩
    else ⟨s, true, [], []⟩
  -- Device status request
  else if req.bmRequestType = VENDOR_IN ∧ req.bRequest = USB_REQ_STATUS ∧
      req.wLength = 1 then
    let s := { s with pending_setup := false }
    let byte := u8 (s.status ||| (if fpga_is_ready s then ST_FPGA_RDY else 0))
    ⟨reset_status_bit s ST_ERROR, false, [byte], []⟩
  -- Bitstream download request
  else if req.bmRequestType = VENDOR_OUT ∧ req.bRequest = USB_REQ_FPGA_CFG ∧
      (req.wIndex = 0 ∨ req.wIndex = u16 (s.bitstream_idx + 1)) then
    let s := { s with pending_setup := false }
    let s := if req.wIndex = 0 then
        fpga_reset env { s with glasgow_config.bitstream_id := List.replicate BITSTREAM_ID_SIZE 0 }
      else s
    let s := fpga_cfg_load_loop s req.wLength
    ⟨{ s with bitstream_idx := req.wIndex }, false, [], []⟩
  -- Bitstream ID get/set request
  else if (req.bmRequestType = VENDOR_IN ∨ req.bmRequestType = VENDOR_OUT) ∧
      req.bRequest = USB_REQ_BITSTREAM_ID ∧ req.wLength = BITSTREAM_ID_SIZE then
    let arg_get := req.bmRequestType &&& 0x80 ≠ 0
    let s := { s with pending_setup := false }
    if arg_get then ⟨s, false, s.glasgow_config.bitstream_id, []⟩
    else
      match fpga_start s with
      | (true, s) =>
        ⟨{ s with glasgow_config.bitstream_id := ep0.take BITSTREAM_ID_SIZE }, false, [], []⟩
      | (false, s) => ⟨s, true, [], []⟩
  -- I/O voltage get/set request
  else if (req.bmRequestType = VENDOR_IN ∨ req.bmRequestType = VENDOR_OUT) ∧
      req.bRequest = USB_REQ_IO_VOLT ∧ req.wLength = 2 then
    let arg_get := req.bmRequestType &&& 0x80 ≠ 0
    let arg_mask := u8 req.wIndex
    let s := { s with pending_setup := false }
    if arg_get then
      match iobuf_get_voltage env s arg_mask with
      | none => ⟨s, true, [], []⟩
      | some mv => ⟨s, false, [u8 mv, u8 (mv / 256)], []⟩
    else
      match iobuf_set_voltage env s arg_mask (le16 ep0) with
      | (false, s) => ⟨latch_status_bit s ST_ERROR, false, [], []⟩
      | (true, s) => ⟨s, false, [], []⟩
  -- Voltage sense request
  else if req.bmRequestType = VENDOR_IN ∧ req.bRequest = USB_REQ_SENSE_VOLT ∧
      req.wLength = 2 then
    let arg_mask := u8 req.wIndex
    let s := { s with pending_setup := false }
    let result := if s.glasgow_config.revision = GLASGOW_REV_C2 then env.ina233_measure arg_mask
      else iobuf_measure_voltage_adc081c env arg_mask
    match result with
    | none => ⟨s, true, [], []⟩
    | some mv => ⟨s, false, [u8 mv, u8 (mv / 256)], []⟩
  -- Voltage alert get/set request
  else if (req.bmRequestType = VENDOR_IN ∨ req.bmRequestType = VENDOR_OUT) ∧
      req.bRequest = USB_REQ_ALERT_VOLT ∧ req.wLength = 4 then
    let arg_get := req.bmRequestType &&& 0x80 ≠ 0
    let arg_mask := u8 req.wIndex
    let s := { s with pending_setup := false }
    if arg_get then
      let result := if s.glasgow_config.revision = GLASGOW_REV_C2 then env.ina233_get_alert arg_mask
        else iobuf_get_alert_adc081c env s arg_mask
      match result with
      | none => ⟨s, true, [], []⟩
      | some (lo, hi) => ⟨s, false, [u8 lo, u8 (lo / 256), u8 hi, u8 (hi / 256)], []⟩
    else
      if s.glasgow_config.revision = GLASGOW_REV_C2 then
        -- acknowledged placeholder: always reports success
        ⟨s, false, [], []⟩
      else
        match iobuf_set_alert_adc081c env s arg_mask (le16 ep0) (le16 (ep0.drop 2)) with
        | (false, s) => ⟨latch_status_bit s ST_ERROR, false, [], []⟩
        | (true, s) => ⟨s, false, [], []⟩
  -- Alert poll request
  else if req.bmRequestType = VENDOR_IN ∧ req.bRequest = USB_REQ_POLL_ALERT ∧
      req.wLength = 1 then
    let s := { s with pending_setup := false }
    let r := iobuf_poll_alert_adc081c env s true
    ⟨reset_status_bit r.2.2 ST_ALERT, false, [u8 r.2.1], []⟩
  -- I/O buffer enable request
  else if req.bmRequestType = VENDOR_OUT ∧ req.bRequest = USB_REQ_IOBUF_ENABLE ∧
      req.wLength = 0 then
    let s := { s with pending_setup := false }
    ⟨iobuf_enable s (req.wValue != 0), false, [], []⟩
  -- I/O voltage limit get/set request
  else if (req.bmRequestType = VENDOR_IN ∨ req.bmRequestType = VENDOR_OUT) ∧
      req.bRequest = USB_REQ_LIMIT_VOLT ∧ req.wLength = 2 then
    let arg_get := req.bmRequestType &&& 0x80 ≠ 0
    let arg_mask := u8 req.wIndex
    let s := { s with pending_setup := false }
    if arg_get then
      match iobuf_get_voltage_limit s arg_mask with
      | none => ⟨s, true, [], []⟩
      | some mv => ⟨s, false, [u8 mv, u8 (mv / 256)], []⟩
    else
      match iobuf_set_voltage_limit env s arg_mask (le16 ep0) with
      | (false, s) => ⟨latch_status_bit s ST_ERROR, false, [], []⟩
      | (true, s) =>
        let op : EOp := ⟨true, I2C_ADDR_FX2_MEM, 8 + 4 + 37, 4, 8⟩
        if env.eeprom_write_ok I2C_ADDR_FX2_MEM (8 + 4 + 37) 4 then ⟨s, false, [], [op]⟩
        else ⟨latch_status_bit s ST_ERROR, false, [], [op]⟩
  -- Pull resistor get/set request
  else if (req.bmRequestType = VENDOR_IN ∨ req.bmRequestType = VENDOR_OUT) ∧
      req.bRequest = USB_REQ_PULL ∧ req.wLength = 2 then
    let arg_get := req.bmRequestType &&& 0x80 ≠ 0
    let arg_selector := u8 req.wIndex
    let s := { s with pending_setup := false }
    if arg_get then
      if s.glasgow_config.revision < GLASGOW_REV_C0 then ⟨s, true, [], []⟩
      else match iobuf_get_pull env s arg_selector with
        | none => ⟨s, true, [], []⟩
        | some (enable, level) => ⟨s, false, [u8 enable, u8 level], []⟩
    else
      if s.glasgow_config.revision < GLASGOW_REV_C0 then
        ⟨latch_status_bit s ST_ERROR, false, [], []⟩
      else match iobuf_set_pull env s arg_selector (u8 (ep0.getD 0 0)) (u8 (ep0.getD 1 0)) with
        | (false, s) => ⟨latch_status_bit s ST_ERROR, false, [], []⟩
        | (true, s) => ⟨s, false, [], []⟩
  -- API level request
  else if req.bmRequestType = VENDOR_IN ∧ req.bRequest = USB_REQ_API_LEVEL ∧
      req.wLength = 1 then
    ⟨{ s with pending_setup := false }, false, [CUR_API_LEVEL], []⟩
  -- Microsoft descriptor requests
  else if req.bmRequestType = VENDOR_IN ∧ req.bRequest = USB_REQ_GET_MS_DESCRIPTOR then
    let s := { s with pending_setup := false }
    if req.wIndex = 4 then ⟨s, false, env.ms_ext_compat_id, []⟩
    else ⟨s, true, [], []⟩
  -- fall-through: unrecognized request; note pending_setup stays set here
  else ⟨s, true, [], []⟩

-- Boot path (config_init, config_fixup, main; main.c).

/-- Results of the two EEPROM reads performed by `config_init`: the boot
marker byte at address 0 and the configuration record at address 12.
`none` models a failed transaction. For a C2 (firmware-present) marker the
record has already been placed in memory by the boot ROM, which the model
represents by the pre-state record passed to `config_init`. -/
structure BootEnv where
  read_load_cmd : Option Nat
  read_config : Option GlasgowConfig

/-- The safe default configuration substituted by `config_init` when the
stored record is absent or corrupt: unknown revision, the sentinel serial
string of sixteen ASCII nines, zero bitstream size. Other fields are left
as they were. -/
def config_default (g : GlasgowConfig) : GlasgowConfig :=
  { g with revision := GLASGOW_REV_NA,
           serial := List.replicate 16 0x39,
           bitstream_size := 0 }

/-- `config_init` (main.c): dispatch on the boot marker byte; 0xC2 means
the record was auto-loaded with the firmware, 0xC0 means it must be read
explicitly, anything else (or a failed read) loads the defaults. -/
def config_init (benv : BootEnv) (g : GlasgowConfig) : GlasgowConfig :=
  match benv.read_load_cmd with
  | none => config_default g
  | some load_cmd =>
    if load_cmd = 0xff then config_default g
    else if load_cmd = 0xc2 then g
    else if load_cmd = 0xc0 then
      match benv.read_config with
      | none => config_default g
      | some record => record
    else config_default g

/-- `config_fixup` (main.c): upgrade the legacy single-letter revision
encoding in memory. The accompanying EEPROM rewrites only affect the
persisted copy. -/
def config_fixup (g : GlasgowConfig) : GlasgowConfig :=
  if g.revision = 0x41 then { g with revision := GLASGOW_REV_A }
  else if g.revision = 0x42 then { g with revision := GLASGOW_REV_B }
  else if g.revision = 0x43 then { g with revision := GLASGOW_REV_C0 }
  else g

/-- `iobuf_init_dac_ldo` (dac_ldo.c): both LDO enable pins driven low and
the revAB output-enable asserted. -/
def iobuf_init_dac_ldo (s : FwState) : FwState :=
  { s with portA.ldo_on := false, portB.ldo_on := false, oeq_n := false }

/-- The bitstream auto-load loop of `main` (main.c): 128-byte chunks read
from the ICE EEPROM into the FPGA, the chip address advancing at each
16-bit address wraparound and the final spill-over redirected to the top
of the FX2 EEPROM. A failed read latches ERROR and aborts. Returns the
state and whether the whole image was shifted in. -/
def autoload_loop (env : Env) (s : FwState) (chip addr length : Nat) : FwState × Bool :=
  if length = 0 then (s, true)
  else
    let chunk_len := if length < 0x80 then length else 0x80
    if env.eeprom_read_ok chip addr chunk_len then
      let s := fpga_load s
      let addr := u16 (addr + chunk_len)
      let next : Nat × Nat :=
        if addr = 0 then
          (if chip + 1 = I2C_ADDR_ICE_MEM + 2 then (I2C_ADDR_FX2_MEM, u16 (addr + 0x7000))
           else (chip + 1, addr))
        else (chip, addr)
      autoload_loop env s next.1 next.2 (length - chunk_len)
    else (latch_status_bit s ST_ERROR, false)
termination_by length
decreasing_by
  split <;> omega

/-- The initialization part of `main` (main.c) before the bitstream
auto-load decision: configuration load and migration, DAC/LDO and monitor
initialization (ERROR latched if the revC2 monitor fails to initialize),
and alert arming. -/
def boot_pre (benv : BootEnv) (env : Env) (g0 : GlasgowConfig)
    (pA0 pB0 : PortState) (cdone0 : Bool) : FwState :=
  let g := config_fixup (config_init benv g0)
  let s : FwState :=
    { pending_setup := false, status := 0, bitstream_idx := 0, glasgow_config := g,
      portA := pA0, portB := pB0, armed_alert := false, cdone := cdone0,
      fpga_reg_pipe_rst := 0, oeq_n := true }
  let s := iobuf_init_dac_ldo s
  let s := if g.revision = GLASGOW_REV_C2 then
      (if env.ina233_init_ok then s else latch_status_bit s ST_ERROR)
    else s
  { s with armed_alert := true }

/-- The boot sequence of `main` (main.c) up to USB enumeration, for a
device whose hardware starts with ports `pA0`/`pB0`, configuration
record memory `g0` and a CDONE line reading `cdone0`. The second
component reports whether a bitstream auto-load was attempted. -/
def main_boot (benv : BootEnv) (env : Env) (g0 : GlasgowConfig)
    (pA0 pB0 : PortState) (cdone0 : Bool) : FwState × Bool :=
  let g := config_fixup (config_init benv g0)
  let s := boot_pre benv env g0 pA0 pB0 cdone0
  if g.bitstream_size > 0 then
    let s := fpga_reset env s
    let r := autoload_loop env s I2C_ADDR_ICE_MEM 0 g.bitstream_size
    let s := if r.2 then
        (match fpga_start r.1 with
         | (true, s) => s
         | (false, s) => latch_status_bit s ST_ERROR)
      else r.1
    (s, true)
  else (s, false)

/-- The corrupt-or-absent configuration condition of `config_init`: the
marker read failed, or the marker is neither the firmware-present value
0xC2 nor the factory value 0xC0 (0xFF being the blank-EEPROM case), or the
marker demanded an explicit record read and that read failed. -/
def config_corrupt (benv : BootEnv) : Prop :=
  match benv.read_load_cmd with
  | none => True
  | some load_cmd =>
    (load_cmd ≠ 0xc2 ∧ load_cmd ≠ 0xc0) ∨ (load_cmd = 0xc0 ∧ benv.read_config = none)

-- Concrete instances used to witness the theorems below.

/-- A healthy environment: every external transaction succeeds and reads
return zero bytes. -/
def env0 : Env :=
  { i2c_ok := true,
    eeprom_read_ok := fun _ _ _ => true,
    eeprom_write_ok := fun _ _ _ => true,
    eeprom_bytes := fun _ _ n => List.replicate n 0,
    adc_conv_code := fun _ => 0,
    fpga_reg_data := fun n => List.replicate n 0,
    ina233_measure := fun _ => none,
    ina233_get_alert := fun _ => none,
    ina233_init_ok := true,
    ms_ext_compat_id := [] }

/-- A quiescent port: LDO off, all peripheral registers zero. -/
def port0 : PortState :=
  { ldo_on := false, dac_code := 0, adc_alerted := false, adc_config := 0,
    adc_low_code := 0, adc_high_code := 0, pull_output := 0, pull_config := 0 }

/-- A plausible revC1 configuration record with both ceilings at 3300 mV. -/
def cfg0 : GlasgowConfig :=
  { revision := GLASGOW_REV_C1, serial := List.replicate 16 0x39,
    bitstream_size := 0, bitstream_id := List.replicate 16 0,
    voltage_limit := (3300, 3300), manufacturer := [], flags := 0 }

/-- An idle firmware state shortly after boot: no command pending, status
clear, FPGA unconfigured. -/
def s0 : FwState :=
  { pending_setup := false, status := 0, bitstream_idx := 0, glasgow_config := cfg0,
    portA := port0, portB := port0, armed_alert := true, cdone := false,
    fpga_reg_pipe_rst := 0, oeq_n := false }

/-- A vendor request matched by no handler of the dispatcher. -/
def req_unknown : UsbReq :=
  { bmRequestType := VENDOR_OUT, bRequest := 0xFE, wValue := 0, wIndex := 0, wLength := 0 }

/-- An index-0 bitstream chunk command with an empty payload. -/
def req_cfg_idx0 : UsbReq :=
  { bmRequestType := VENDOR_OUT, bRequest := USB_REQ_FPGA_CFG, wValue := 0, wIndex := 0,
    wLength := 0 }

/-- A host-to-device image-identifier set command. -/
def req_id_set : UsbReq :=
  { bmRequestType := VENDOR_OUT, bRequest := USB_REQ_BITSTREAM_ID, wValue := 0, wIndex := 0,
    wLength := 16 }

/-- A status query. -/
def req_status : UsbReq :=
  { bmRequestType := VENDOR_IN, bRequest := USB_REQ_STATUS, wValue := 0, wIndex := 0,
    wLength := 1 }

/-- An alert poll/acknowledge request. -/
def req_poll_alert : UsbReq :=
  { bmRequestType := VENDOR_IN, bRequest := USB_REQ_POLL_ALERT, wValue := 0, wIndex := 0,
    wLength := 1 }

/-- A bitstream chunk command with an out-of-order index. -/
def req_cfg_bad : UsbReq :=
  { bmRequestType := VENDOR_OUT, bRequest := USB_REQ_FPGA_CFG, wValue := 0, wIndex := 5,
    wLength := 0 }

/-- The idle state with both sticky bits (ERROR and ALERT) latched. -/
def s_err_alert : FwState := { s0 with status := 5 }

/-- An in-bounds EEPROM write through chip selector 3. -/
def req_eep3 : UsbReq :=
  { bmRequestType := VENDOR_OUT, bRequest := USB_REQ_EEPROM, wValue := 0x0800,
    wIndex := 3, wLength := 0x100 }

/-- Boot reads from a blank EEPROM: the marker byte reads 0xFF and the
record read fails. -/
def benv_blank : BootEnv := { read_load_cmd := some 0xff, read_config := none }

/-- Boot reads from a factory-programmed EEPROM holding a record with a
100-byte bitstream flashed. -/
def benv_flashed : BootEnv :=
  { read_load_cmd := some 0xc0, read_config := some { cfg0 with bitstream_size := 100 } }

/-- The state right after the alert interrupt fired while port A was
driven at a commanded 3300 mV (DAC code 2333): the monitor on port A holds
its alert, and detection is disarmed. -/
def s_tripped : FwState :=
  { s0 with
    portA := { port0 with ldo_on := true, dac_code := 2333, adc_alerted := true },
    armed_alert := false }

/-- The idle state with port A driven at a commanded 3300 mV. -/
def s_driven : FwState :=
  { s0 with portA := { port0 with ldo_on := true, dac_code := 2333 } }

-- Helper lemmas shared by the claim theorems.

/-- The FPGA_CFG transfer loop only shifts bits into the configuration
link; the firmware state is unchanged. -/
theorem fpga_cfg_load_loop_id (s : FwState) (len : Nat) :
    fpga_cfg_load_loop s len = s := by
  induction len using Nat.strong_induction_on with
  | _ n ih =>
    rw [fpga_cfg_load_loop]
    split
    · rfl
    · rename_i h
      rw [fpga_load]
      exact ih _ (by split <;> omega)

/-- C1: while the pending-command flag is set, a newly arriving SETUP
request is rejected with a stall and causes no state change; when the flag
is clear, the arriving request sets it. -/
theorem c1_submit_admission (s : FwState) :
    (s.pending_setup = true → handle_usb_setup s = (s, true)) ∧
    (s.pending_setup = false →
      handle_usb_setup s = ({ s with pending_setup := true }, false)) := by
  constructor <;> intro h <;> simp [handle_usb_setup, h]

/-- Closed instance of `c1_submit_admission` at a concrete busy state. -/
theorem c1_submit_admission_witness :
    ({ s0 with pending_setup := true } : FwState).pending_setup = true ∧
    handle_usb_setup { s0 with pending_setup := true } =
      ({ s0 with pending_setup := true }, true) :=
  ⟨rfl, (c1_submit_admission { s0 with pending_setup := true }).1 rfl⟩

/-- C2 (failing input): a request matched by no dispatcher branch reaches
the final fall-through stall, which returns control to the host-facing
transport with `pending_setup` still set; the claimed invariant that the
flag is cleared on every path is violated by the code. -/
theorem c2_unmatched_request_keeps_pending_flag :
    (handle_pending_usb_setup env0 { s0 with pending_setup := true } req_unknown []).stalled
      = true ∧
    (handle_pending_usb_setup env0 { s0 with pending_setup := true } req_unknown
      []).st.pending_setup = true := by
  constructor <;> rfl

/-- C8 (counterexample): in the scenario of the claim — voltage-set of
3300 mV on port A with ceiling 3300 mV succeeds, then ceiling-set of
1800 mV forces the voltage down — the subsequent voltage-get on port A
does not return 1800 mV: the DAC code round-trip quantizes the forced
1800 mV command to a readback of 1817 mV. -/
theorem c8_scenario_counterexample :
    (iobuf_set_voltage env0 s0 IO_BUF_A 3300).1 = true ∧
    (iobuf_set_voltage_limit env0 (iobuf_set_voltage env0 s0 IO_BUF_A 3300).2
      IO_BUF_A 1800).1 = true ∧
    iobuf_get_voltage env0
      (iobuf_set_voltage_limit env0 (iobuf_set_voltage env0 s0 IO_BUF_A 3300).2
        IO_BUF_A 1800).2 IO_BUF_A ≠ some 1800 := by
  refine ⟨rfl, rfl, ?_⟩
  decide

/-- C8 (amended): in the same scenario the voltage-get on port A returns
exactly 1817 mV — the value 1800 mV quantized through the DAC code word
`(254 << 4) - ((((1800 - 1650) >> 4) * 269) >> 4) = 3913` and decoded back
as `1650 + (255 - (3913 >> 4)) * 152 / 10`. -/
theorem c8_scenario_voltage_after_ceiling_force :
    (iobuf_set_voltage env0 s0 IO_BUF_A 3300).1 = true ∧
    (iobuf_set_voltage_limit env0 (iobuf_set_voltage env0 s0 IO_BUF_A 3300).2
      IO_BUF_A 1800).1 = true ∧
    iobuf_get_voltage env0
      (iobuf_set_voltage_limit env0 (iobuf_set_voltage env0 s0 IO_BUF_A 3300).2
        IO_BUF_A 1800).2 IO_BUF_A = some 1817 := by
  exact ⟨rfl, rfl, rfl⟩

/-- C3: an FPGA_CFG chunk is accepted only when its index is 0 or exactly
one more than the last accepted index (in 16-bit arithmetic); an accepted
index-0 chunk first clears the stored image identifier and resets the FPGA
before the chunk data is loaded; any other index falls through to the
stall and neither the sequence counter nor any other state advances. -/
theorem c3_bitstream_chunk_sequencing (env : Env) (s : FwState) (req : UsbReq)
    (ep0 : List Nat)
    (hty : req.bmRequestType = VENDOR_OUT) (hrq : req.bRequest = USB_REQ_FPGA_CFG) :
    (req.wIndex ≠ 0 → req.wIndex ≠ u16 (s.bitstream_idx + 1) →
      handle_pending_usb_setup env s req ep0 = ⟨s, true, [], []⟩) ∧
    (req.wIndex = 0 →
      handle_pending_usb_setup env s req ep0 =
        ⟨{ (fpga_reset env
              { s with
                pending_setup := false,
                glasgow_config.bitstream_id := List.replicate BITSTREAM_ID_SIZE 0 }) with
           bitstream_idx := 0 }, false, [], []⟩) ∧
    (req.wIndex ≠ 0 → req.wIndex = u16 (s.bitstream_idx + 1) →
      handle_pending_usb_setup env s req ep0 =
        ⟨{ s with pending_setup := false, bitstream_idx := req.wIndex }, false, [], []⟩) := by
  refine ⟨fun h1 h2 => ?_, fun h0 => ?_, fun h1 h2 => ?_⟩
  · simp [handle_pending_usb_setup, hty, hrq, h1, h2,
      VENDOR_OUT, VENDOR_IN, USB_REQ_LIBFX2_PAGE_SIZE, USB_REQ_CYPRESS_EEPROM_DB,
      USB_REQ_EEPROM, USB_REQ_REGISTER, USB_REQ_STATUS, USB_REQ_FPGA_CFG,
      USB_REQ_BITSTREAM_ID, USB_REQ_IO_VOLT, USB_REQ_SENSE_VOLT, USB_REQ_ALERT_VOLT,
      USB_REQ_POLL_ALERT, USB_REQ_IOBUF_ENABLE, USB_REQ_LIMIT_VOLT, USB_REQ_PULL,
      USB_REQ_API_LEVEL, USB_REQ_GET_MS_DESCRIPTOR]
  · simp [handle_pending_usb_setup, hty, hrq, h0, fpga_cfg_load_loop_id,
      VENDOR_OUT, VENDOR_IN, USB_REQ_LIBFX2_PAGE_SIZE, USB_REQ_CYPRESS_EEPROM_DB,
      USB_REQ_EEPROM, USB_REQ_REGISTER, USB_REQ_STATUS, USB_REQ_FPGA_CFG,
      USB_REQ_BITSTREAM_ID, USB_REQ_IO_VOLT, USB_REQ_SENSE_VOLT, USB_REQ_ALERT_VOLT,
      USB_REQ_POLL_ALERT, USB_REQ_IOBUF_ENABLE, USB_REQ_LIMIT_VOLT, USB_REQ_PULL,
      USB_REQ_API_LEVEL, USB_REQ_GET_MS_DESCRIPTOR]
  · have h3 : u16 (s.bitstream_idx + 1) ≠ 0 := h2 ▸ h1
    simp [handle_pending_usb_setup, hty, hrq, h2, h3, fpga_cfg_load_loop_id,
      VENDOR_OUT, VENDOR_IN, USB_REQ_LIBFX2_PAGE_SIZE, USB_REQ_CYPRESS_EEPROM_DB,
      USB_REQ_EEPROM, USB_REQ_REGISTER, USB_REQ_STATUS, USB_REQ_FPGA_CFG,
      USB_REQ_BITSTREAM_ID, USB_REQ_IO_VOLT, USB_REQ_SENSE_VOLT, USB_REQ_ALERT_VOLT,
      USB_REQ_POLL_ALERT, USB_REQ_IOBUF_ENABLE, USB_REQ_LIMIT_VOLT, USB_REQ_PULL,
      USB_REQ_API_LEVEL, USB_REQ_GET_MS_DESCRIPTOR]

/-- Closed instance of `c3_bitstream_chunk_sequencing`: from the reset
state (last accepted index 0) a chunk with index 5 is rejected and the
sequence counter stays at 0. -/
theorem c3_bitstream_chunk_sequencing_witness :
    req_cfg_bad.bmRequestType = VENDOR_OUT ∧ req_cfg_bad.bRequest = USB_REQ_FPGA_CFG ∧
    handle_pending_usb_setup env0 s0 req_cfg_bad [] = ⟨s0, true, [], []⟩ :=
  ⟨rfl, rfl,
    (c3_bitstream_chunk_sequencing env0 s0 req_cfg_bad [] rfl rfl).1
      (by decide) (by decide)⟩

/-- Polling the alert monitors only touches their internal registers: the
status latch, the LDO enable pins, the DAC codes, the configuration record
and the bitstream counter are untouched. -/
theorem poll_alert_frame (env : Env) (clear : Bool) (s : FwState) :
    (iobuf_poll_alert_adc081c env s clear).2.2.status = s.status ∧
    (iobuf_poll_alert_adc081c env s clear).2.2.portA.ldo_on = s.portA.ldo_on ∧
    (iobuf_poll_alert_adc081c env s clear).2.2.portA.dac_code = s.portA.dac_code ∧
    (iobuf_poll_alert_adc081c env s clear).2.2.portB.ldo_on = s.portB.ldo_on ∧
    (iobuf_poll_alert_adc081c env s clear).2.2.portB.dac_code = s.portB.dac_code ∧
    (iobuf_poll_alert_adc081c env s clear).2.2.glasgow_config = s.glasgow_config ∧
    (iobuf_poll_alert_adc081c env s clear).2.2.bitstream_idx = s.bitstream_idx ∧
    (iobuf_poll_alert_adc081c env s clear).2.2.pending_setup = s.pending_setup := by
  simp only [iobuf_poll_alert_adc081c, adc081c_buffers, poll_alert_loop]
  repeat' split
  all_goals simp [set_port, port_of, IO_BUF_A, IO_BUF_B]

/-- Value of the status latch after `reset_status_bit`. -/
theorem reset_status_bit_status (s : FwState) (bit : Nat) :
    (reset_status_bit s bit).status =
      if s.status &&& bit ≠ 0 then s.status &&& (255 ^^^ bit) else s.status := by
  unfold reset_status_bit
  split <;> rfl

/-- `reset_status_bit` touches nothing but the status latch. -/
theorem reset_status_bit_frame (s : FwState) (bit : Nat) :
    (reset_status_bit s bit).portA = s.portA ∧
    (reset_status_bit s bit).portB = s.portB ∧
    (reset_status_bit s bit).glasgow_config = s.glasgow_config ∧
    (reset_status_bit s bit).bitstream_idx = s.bitstream_idx ∧
    (reset_status_bit s bit).pending_setup = s.pending_setup ∧
    (reset_status_bit s bit).cdone = s.cdone ∧
    (reset_status_bit s bit).armed_alert = s.armed_alert := by
  unfold reset_status_bit
  split <;> simp

/-- C6: the status query returns one byte whose bit 0 is ERROR, bit 1 the
live FPGA readiness line and bit 2 ALERT; its only side effect is clearing
ERROR (bit 2 survives, and every other state component is untouched). The
alert poll/acknowledge operation clears ALERT but not ERROR and leaves the
ports' output state alone. -/
theorem c6_status_latch_effects (env : Env) (s s2 : FwState) (req preq : UsbReq)
    (ep0 : List Nat)
    (hs : s.status < 8) (hb1 : s.status &&& 2 = 0) (hs2 : s2.status < 8)
    (hty : req.bmRequestType = VENDOR_IN) (hrq : req.bRequest = USB_REQ_STATUS)
    (hlen : req.wLength = 1)
    (pty : preq.bmRequestType = VENDOR_IN) (prq : preq.bRequest = USB_REQ_POLL_ALERT)
    (plen : preq.wLength = 1) :
    (handle_pending_usb_setup env s req ep0 =
      ⟨{ s with pending_setup := false, status := s.status &&& 6 }, false,
       [s.status ||| (if s.cdone then 2 else 0)], []⟩) ∧
    ((s.status ||| (if s.cdone then 2 else 0)).testBit 0 = s.status.testBit 0 ∧
     (s.status ||| (if s.cdone then 2 else 0)).testBit 1 = s.cdone ∧
     (s.status ||| (if s.cdone then 2 else 0)).testBit 2 = s.status.testBit 2) ∧
    ((s.status &&& 6).testBit 0 = false ∧
     (s.status &&& 6).testBit 2 = s.status.testBit 2) ∧
    ((handle_pending_usb_setup env s2 preq ep0).st.status.testBit 2 = false ∧
     (handle_pending_usb_setup env s2 preq ep0).st.status.testBit 0 = s2.status.testBit 0 ∧
     (handle_pending_usb_setup env s2 preq ep0).st.portA.ldo_on = s2.portA.ldo_on ∧
     (handle_pending_usb_setup env s2 preq ep0).st.portB.ldo_on = s2.portB.ldo_on ∧
     (handle_pending_usb_setup env s2 preq ep0).st.glasgow_config = s2.glasgow_config ∧
     (handle_pending_usb_setup env s2 preq ep0).stalled = false) := by
  refine ⟨?_, ?_, ?_, ?_⟩
  · obtain ⟨sp, sst, sbi, sgc, spa, spb, saa, scd, spr, soq⟩ := s
    simp only [FwState.status] at hs hb1
    simp only [handle_pending_usb_setup, hty, hrq, hlen, reset_status_bit, fpga_is_ready,
      u8, ST_FPGA_RDY, ST_ERROR,
      VENDOR_OUT, VENDOR_IN, USB_REQ_LIBFX2_PAGE_SIZE, USB_REQ_CYPRESS_EEPROM_DB,
      USB_REQ_EEPROM, USB_REQ_REGISTER, USB_REQ_STATUS, USB_REQ_FPGA_CFG,
      USB_REQ_BITSTREAM_ID, USB_REQ_IO_VOLT, USB_REQ_SENSE_VOLT, USB_REQ_ALERT_VOLT,
      USB_REQ_POLL_ALERT, USB_REQ_IOBUF_ENABLE, USB_REQ_LIMIT_VOLT, USB_REQ_PULL,
      USB_REQ_API_LEVEL, USB_REQ_GET_MS_DESCRIPTOR]
    interval_cases sst <;> simp_all <;> first
      | decide
      | (cases scd <;> simp <;> decide)
  · have key : ∀ x : Nat, x < 8 → ∀ c : Bool, x &&& 2 = 0 →
        ((x ||| (if c then 2 else 0)).testBit 0 = x.testBit 0 ∧
         (x ||| (if c then 2 else 0)).testBit 1 = c ∧
         (x ||| (if c then 2 else 0)).testBit 2 = x.testBit 2) := by
      intro x hx
      interval_cases x <;> decide
    exact key s.status hs s.cdone hb1
  · have key : ∀ x : Nat, x < 8 →
        ((x &&& 6).testBit 0 = false ∧ (x &&& 6).testBit 2 = x.testBit 2) := by
      intro x hx
      interval_cases x <;> decide
    exact key s.status hs
  · have hd : handle_pending_usb_setup env s2 preq ep0 =
        ⟨reset_status_bit
            (iobuf_poll_alert_adc081c env { s2 with pending_setup := false } true).2.2
            ST_ALERT,
         false,
         [u8 (iobuf_poll_alert_adc081c env { s2 with pending_setup := false } true).2.1],
         []⟩ := by
      simp [handle_pending_usb_setup, pty, prq, plen, ST_ALERT,
        VENDOR_OUT, VENDOR_IN, USB_REQ_LIBFX2_PAGE_SIZE, USB_REQ_CYPRESS_EEPROM_DB,
        USB_REQ_EEPROM, USB_REQ_REGISTER, USB_REQ_STATUS, USB_REQ_FPGA_CFG,
        USB_REQ_BITSTREAM_ID, USB_REQ_IO_VOLT, USB_REQ_SENSE_VOLT, USB_REQ_ALERT_VOLT,
        USB_REQ_POLL_ALERT, USB_REQ_IOBUF_ENABLE, USB_REQ_LIMIT_VOLT, USB_REQ_PULL,
        USB_REQ_API_LEVEL, USB_REQ_GET_MS_DESCRIPTOR]
    obtain ⟨hst, hA, hAd, hB, hBd, hgc, hbi, hpend⟩ :=
      poll_alert_frame env true { s2 with pending_setup := false }
    have key : ∀ x : Nat, x < 8 →
        ((if x &&& 4 ≠ 0 then x &&& (255 ^^^ 4) else x).testBit 2 = false ∧
         (if x &&& 4 ≠ 0 then x &&& (255 ^^^ 4) else x).testBit 0 = x.testBit 0) := by
      intro x hx
      interval_cases x <;> decide
    rw [hd]
    refine ⟨?_, ?_, ?_, ?_, ?_, rfl⟩
    · rw [reset_status_bit_status, hst]
      exact (key s2.status hs2).1
    · rw [reset_status_bit_status, hst]
      exact (key s2.status hs2).2
    · rw [(reset_status_bit_frame _ _).1]
      exact hA
    · rw [(reset_status_bit_frame _ _).2.1]
      exact hB
    · rw [(reset_status_bit_frame _ _).2.2.1]
      exact hgc

/-- Closed instance of `c6_status_latch_effects` at the state with both
ERROR and ALERT latched: the status query returns 0b101 and clears only
ERROR; the alert acknowledge clears only ALERT. -/
theorem c6_status_latch_effects_witness :
    (s_err_alert.status < 8 ∧ s_err_alert.status &&& 2 = 0) ∧
    ((handle_pending_usb_setup env0 s_err_alert req_status [] =
      ⟨{ s_err_alert with pending_setup := false, status := s_err_alert.status &&& 6 },
       false, [s_err_alert.status ||| (if s_err_alert.cdone then 2 else 0)], []⟩) ∧
    ((s_err_alert.status ||| (if s_err_alert.cdone then 2 else 0)).testBit 0 =
        s_err_alert.status.testBit 0 ∧
     (s_err_alert.status ||| (if s_err_alert.cdone then 2 else 0)).testBit 1 =
        s_err_alert.cdone ∧
     (s_err_alert.status ||| (if s_err_alert.cdone then 2 else 0)).testBit 2 =
        s_err_alert.status.testBit 2) ∧
    ((s_err_alert.status &&& 6).testBit 0 = false ∧
     (s_err_alert.status &&& 6).testBit 2 = s_err_alert.status.testBit 2) ∧
    ((handle_pending_usb_setup env0 s_err_alert req_poll_alert []).st.status.testBit 2
        = false ∧
     (handle_pending_usb_setup env0 s_err_alert req_poll_alert []).st.status.testBit 0
        = s_err_alert.status.testBit 0 ∧
     (handle_pending_usb_setup env0 s_err_alert req_poll_alert []).st.portA.ldo_on
        = s_err_alert.portA.ldo_on ∧
     (handle_pending_usb_setup env0 s_err_alert req_poll_alert []).st.portB.ldo_on
        = s_err_alert.portB.ldo_on ∧
     (handle_pending_usb_setup env0 s_err_alert req_poll_alert []).st.glasgow_config
        = s_err_alert.glasgow_config ∧
     (handle_pending_usb_setup env0 s_err_alert req_poll_alert []).stalled = false)) :=
  ⟨⟨by decide, by decide⟩,
   c6_status_latch_effects env0 s_err_alert s_err_alert req_status req_poll_alert []
     (by decide) (by decide) (by decide) rfl rfl rfl rfl rfl rfl⟩

/-- Every transaction attempted by the chunked EEPROM loop targets the
requested chip with the requested page size and stays inside the requested
address window (when that window does not wrap the 16-bit address space). -/
theorem eeprom_chunks_bounds (env : Env) (w : Bool) (chip page : Nat) :
    ∀ len addr, addr + len < 65536 →
      ∀ op ∈ (eeprom_chunks env w chip page addr len).1,
        op.is_write = w ∧ op.chip = chip ∧ op.page_size = page ∧
        addr ≤ op.addr ∧ op.addr + op.len ≤ addr + len := by
  intro len
  induction len using Nat.strong_induction_on with
  | _ n ih =>
    intro addr hlt op hop
    rw [eeprom_chunks] at hop
    by_cases h0 : n = 0
    · simp [h0] at hop
    · rw [if_neg h0] at hop
      dsimp only at hop
      set chunk_len := if n < 64 then n else 64 with hchunk
      have hc1 : 1 ≤ chunk_len := by rw [hchunk]; split <;> omega
      have hcn : chunk_len ≤ n := by rw [hchunk]; split <;> omega
      have haddr : u16 (addr + chunk_len) = addr + chunk_len := by
        have : addr + chunk_len < 65536 := by omega
        simpa [u16] using Nat.mod_eq_of_lt this
      split at hop
      · split at hop
        · rcases List.mem_cons.mp hop with hop | hop
          · subst hop
            refine ⟨rfl, rfl, rfl, le_refl _, ?_⟩
            show addr + chunk_len ≤ addr + n
            omega
          · rw [haddr] at hop
            have := ih (n - chunk_len) (by omega) (addr + chunk_len) (by omega) op hop
            exact ⟨this.1, this.2.1, this.2.2.1, by omega, by omega⟩
        · rcases List.mem_singleton.mp hop with rfl
          refine ⟨rfl, rfl, rfl, le_refl _, ?_⟩
          show addr + chunk_len ≤ addr + n
          omega
      · split at hop
        · rcases List.mem_cons.mp hop with hop | hop
          · subst hop
            refine ⟨rfl, rfl, rfl, le_refl _, ?_⟩
            show addr + chunk_len ≤ addr + n
            omega
          · rw [haddr] at hop
            have := ih (n - chunk_len) (by omega) (addr + chunk_len) (by omega) op hop
            exact ⟨this.1, this.2.1, this.2.2.1, by omega, by omega⟩
        · rcases List.mem_singleton.mp hop with rfl
          refine ⟨rfl, rfl, rfl, le_refl _, ?_⟩
          show addr + chunk_len ≤ addr + n
          omega

/-- A nonzero-length EEPROM transfer attempts at least one transaction. -/
theorem eeprom_chunks_ne_nil (env : Env) (w : Bool) (chip page addr len : Nat)
    (h : len ≠ 0) : (eeprom_chunks env w chip page addr len).1 ≠ [] := by
  rw [eeprom_chunks, if_neg h]
  dsimp only
  split <;> split <;> split <;> simp

/-- C10: an EEPROM request with chip selector 3 is performed — against the
FX2 EEPROM with 64-byte pages (page-size exponent 6), every attempted
transaction remapped into the window from 0x7000 to 0x8000 — only when
address ≤ 0x1000, length ≤ 0x1000 and address + length ≤ 0x1000; outside
these bounds, and for any selector above 3, the request stalls with no
transaction attempted, so such a transfer never reaches the configuration
block at the bottom of the FX2 EEPROM. -/
theorem c10_eeprom_selector3_bounds (env : Env) (s : FwState) (req : UsbReq)
    (ep0 : List Nat)
    (hty : req.bmRequestType = VENDOR_IN ∨ req.bmRequestType = VENDOR_OUT)
    (hrq : req.bRequest = USB_REQ_EEPROM) (hwf : req.wf) :
    (req.wIndex = 3 →
      ((req.wValue ≤ 0x1000 ∧ req.wLength ≤ 0x1000 ∧ req.wValue + req.wLength ≤ 0x1000) →
        (∀ op ∈ (handle_pending_usb_setup env s req ep0).eeprom_ops,
          op.chip = I2C_ADDR_FX2_MEM ∧ op.page_size = 6 ∧
          0x7000 ≤ op.addr ∧ op.addr + op.len ≤ 0x8000) ∧
        (req.wLength ≠ 0 → (handle_pending_usb_setup env s req ep0).eeprom_ops ≠ [])) ∧
      (¬ (req.wValue ≤ 0x1000 ∧ req.wLength ≤ 0x1000 ∧ req.wValue + req.wLength ≤ 0x1000) →
        handle_pending_usb_setup env s req ep0 =
          ⟨{ s with pending_setup := false }, true, [], []⟩)) ∧
    (4 ≤ req.wIndex →
      handle_pending_usb_setup env s req ep0 =
        ⟨{ s with pending_setup := false }, true, [], []⟩) := by
  obtain ⟨hwf1, hwf2, hwf3, hwf4, hwf5⟩ := hwf
  refine ⟨fun h3 => ⟨fun hb => ?_, fun hnb => ?_⟩, fun h4 => ?_⟩
  · -- selector 3, in-bounds: the transfer is remapped to the top window
    obtain ⟨hbv, hbl, hbs⟩ := hb
    have htgt : eeprom_target req =
        (I2C_ADDR_FX2_MEM, 6, req.wValue + 0x7000) := by
      have hguard : req.wValue ≤ 0x1000 ∧ req.wLength ≤ 0x1000 ∧
          u16 (req.wValue + req.wLength) ≤ 0x1000 := by
        refine ⟨hbv, hbl, ?_⟩
        simp only [u16]
        omega
      have haddr : u16 (req.wValue + 0x7000) = req.wValue + 0x7000 := by
        simp only [u16]
        omega
      simp [eeprom_target, hrq, h3, hguard, haddr,
        USB_REQ_EEPROM, USB_REQ_CYPRESS_EEPROM_DB, I2C_ADDR_FX2_MEM]
    have hd : (handle_pending_usb_setup env s req ep0).eeprom_ops =
        (eeprom_chunks env (decide ¬ req.bmRequestType &&& 0x80 ≠ 0)
          I2C_ADDR_FX2_MEM 6 (req.wValue + 0x7000) req.wLength).1 := by
      rcases hty with hty | hty <;>
        simp [handle_pending_usb_setup, hty, hrq, htgt,
          VENDOR_OUT, VENDOR_IN, USB_REQ_LIBFX2_PAGE_SIZE, USB_REQ_CYPRESS_EEPROM_DB,
          USB_REQ_EEPROM, I2C_ADDR_FX2_MEM]
    rw [hd]
    constructor
    · intro op hop
      have := eeprom_chunks_bounds env (decide ¬ req.bmRequestType &&& 0x80 ≠ 0)
        I2C_ADDR_FX2_MEM 6 req.wLength (req.wValue + 0x7000) (by omega) op hop
      exact ⟨this.2.1, this.2.2.1, by omega, by omega⟩
    · intro hlen
      exact eeprom_chunks_ne_nil env _ _ _ _ _ hlen
  · -- selector 3, out of bounds: stalled, nothing attempted
    have htgt : eeprom_target req = (0, 0, req.wValue) := by
      have hguard : ¬ (req.wValue ≤ 0x1000 ∧ req.wLength ≤ 0x1000 ∧
          u16 (req.wValue + req.wLength) ≤ 0x1000) := by
        simp only [u16]
        intro hx
        exact hnb ⟨hx.1, hx.2.1, by omega⟩
      simp [eeprom_target, hrq, h3, hguard, USB_REQ_EEPROM, USB_REQ_CYPRESS_EEPROM_DB]
    rcases hty with hty | hty <;>
      simp [handle_pending_usb_setup, hty, hrq, htgt,
        VENDOR_OUT, VENDOR_IN, USB_REQ_LIBFX2_PAGE_SIZE, USB_REQ_CYPRESS_EEPROM_DB,
        USB_REQ_EEPROM]
  · -- selector above 3: stalled, nothing attempted
    have htgt : eeprom_target req = (0, 0, req.wValue) := by
      have h0 : req.wIndex ≠ 0 := by omega
      have h1 : req.wIndex ≠ 1 := by omega
      have h2 : req.wIndex ≠ 2 := by omega
      have h3 : req.wIndex ≠ 3 := by omega
      simp [eeprom_target, hrq, h0, h1, h2, h3,
        USB_REQ_EEPROM, USB_REQ_CYPRESS_EEPROM_DB]
    rcases hty with hty | hty <;>
      simp [handle_pending_usb_setup, hty, hrq, htgt,
        VENDOR_OUT, VENDOR_IN, USB_REQ_LIBFX2_PAGE_SIZE, USB_REQ_CYPRESS_EEPROM_DB,
        USB_REQ_EEPROM]

/-- Closed instance of `c10_eeprom_selector3_bounds` at an in-bounds
selector-3 write of 0x100 bytes from address 0x0800. -/
theorem c10_eeprom_selector3_bounds_witness :
    (req_eep3.wIndex = 3 ∧ req_eep3.wValue ≤ 0x1000 ∧ req_eep3.wLength ≤ 0x1000 ∧
      req_eep3.wValue + req_eep3.wLength ≤ 0x1000) ∧
    ((∀ op ∈ (handle_pending_usb_setup env0 s0 req_eep3 []).eeprom_ops,
        op.chip = I2C_ADDR_FX2_MEM ∧ op.page_size = 6 ∧
        0x7000 ≤ op.addr ∧ op.addr + op.len ≤ 0x8000) ∧
     (req_eep3.wLength ≠ 0 →
        (handle_pending_usb_setup env0 s0 req_eep3 []).eeprom_ops ≠ [])) :=
  ⟨⟨rfl, by decide, by decide, by decide⟩,
   ((c10_eeprom_selector3_bounds env0 s0 req_eep3 [] (Or.inr rfl) rfl
      (by exact ⟨by decide, by decide, by decide, by decide, by decide⟩)).1 rfl).1
     ⟨by decide, by decide, by decide⟩⟩

/-- C9: when the persisted configuration record is absent, corrupt or
unreadable, boot substitutes the defaults — unknown revision, the sentinel
serial of sixteen ASCII nines, zero bitstream size — surfaces no error
(the status latch stays clear), and attempts no FPGA auto-load because the
default image size is zero. -/
theorem c9_corrupt_config_defaults (benv : BootEnv) (env : Env)
    (g0 : GlasgowConfig) (pA0 pB0 : PortState) (cdone0 : Bool)
    (hbad : config_corrupt benv) :
    (main_boot benv env g0 pA0 pB0 cdone0).1.glasgow_config.revision = GLASGOW_REV_NA ∧
    (main_boot benv env g0 pA0 pB0 cdone0).1.glasgow_config.serial =
      List.replicate 16 0x39 ∧
    (main_boot benv env g0 pA0 pB0 cdone0).1.glasgow_config.bitstream_size = 0 ∧
    (main_boot benv env g0 pA0 pB0 cdone0).1.status = 0 ∧
    (main_boot benv env g0 pA0 pB0 cdone0).2 = false := by
  have hinit : config_init benv g0 = config_default g0 := by
    unfold config_corrupt at hbad
    cases hrd : benv.read_load_cmd with
    | none => simp [config_init, hrd]
    | some c =>
      rw [hrd] at hbad
      rcases hbad with ⟨h2, h0⟩ | ⟨hc, hrc⟩
      · by_cases hff : c = 0xff <;> simp [config_init, hrd, hff, h2, h0]
      · simp [config_init, hrd, hc, hrc]
  have hfix : config_fixup (config_default g0) = config_default g0 := by
    simp [config_fixup, config_default, GLASGOW_REV_NA]
  have hrev : (config_default g0).revision = GLASGOW_REV_NA := rfl
  have hser : (config_default g0).serial = List.replicate 16 0x39 := rfl
  have hsize : (config_default g0).bitstream_size = 0 := rfl
  simp [main_boot, boot_pre, hinit, hfix, hrev, hser, hsize, iobuf_init_dac_ldo,
    GLASGOW_REV_C2, GLASGOW_REV_NA]

/-- Closed instance of `c9_corrupt_config_defaults` at a blank EEPROM. -/
theorem c9_corrupt_config_defaults_witness :
    config_corrupt benv_blank ∧
    ((main_boot benv_blank env0 cfg0 port0 port0 false).1.glasgow_config.revision
        = GLASGOW_REV_NA ∧
     (main_boot benv_blank env0 cfg0 port0 port0 false).1.glasgow_config.serial
        = List.replicate 16 0x39 ∧
     (main_boot benv_blank env0 cfg0 port0 port0 false).1.glasgow_config.bitstream_size
        = 0 ∧
     (main_boot benv_blank env0 cfg0 port0 port0 false).1.status = 0 ∧
     (main_boot benv_blank env0 cfg0 port0 port0 false).2 = false) :=
  ⟨Or.inl (by decide),
   c9_corrupt_config_defaults benv_blank env0 cfg0 port0 port0 false
     (Or.inl (by decide))⟩

/-- With every EEPROM read succeeding, the boot auto-load loop shifts the
whole image in, latches nothing, and reports completion. -/
theorem autoload_loop_all_ok (env : Env)
    (hrd : ∀ c a l, env.eeprom_read_ok c a l = true) (s : FwState) :
    ∀ length chip addr, autoload_loop env s chip addr length = (s, true) := by
  intro length
  induction length using Nat.strong_induction_on with
  | _ n ih =>
    intro chip addr
    rw [autoload_loop]
    by_cases h0 : n = 0
    · simp [h0]
    · rw [if_neg h0]
      dsimp only
      have hlt : n - (if n < 0x80 then n else 0x80) < n := by split <;> omega
      simp only [hrd, if_true, fpga_load]
      exact ih _ hlt _ _

/-- `fpga_reset` only acts on the LDO pins and DAC codes (revC voltage
cutoff); the CDONE line, the status latch and the configuration record are
untouched. -/
theorem fpga_reset_frame (env : Env) (s : FwState) :
    (fpga_reset env s).cdone = s.cdone ∧ (fpga_reset env s).status = s.status ∧
    (fpga_reset env s).glasgow_config = s.glasgow_config := by
  have hsv : (iobuf_set_voltage env s 3 0).2 = write_ldo_pins s 3 false := by
    simp [iobuf_set_voltage, IO_BUF_A, IO_BUF_B]
  unfold fpga_reset
  dsimp only
  split_ifs <;> simp [hsv, write_ldo_pins, IO_BUF_ALL, IO_BUF_A, IO_BUF_B]

/-- C7 (counterexample): after an index-0 configuration load, a host
image-identifier set command invokes `fpga_start`; with CDONE low the start
returns Faulted, and the command stalls without setting the ERROR status
bit — contradicting the claim that a Faulted start sets ERROR. -/
theorem c7_start_fault_no_error_counterexample :
    (fpga_start (handle_pending_usb_setup env0 { s0 with pending_setup := true }
        req_cfg_idx0 []).st).1 = false ∧
    (handle_pending_usb_setup env0
        { (handle_pending_usb_setup env0 { s0 with pending_setup := true }
            req_cfg_idx0 []).st with pending_setup := true }
        req_id_set (List.replicate 16 0xAB)).stalled = true ∧
    (handle_pending_usb_setup env0
        { (handle_pending_usb_setup env0 { s0 with pending_setup := true }
            req_cfg_idx0 []).st with pending_setup := true }
        req_id_set (List.replicate 16 0xAB)).st.status &&& ST_ERROR = 0 := by
  have hload : ∀ s : FwState, fpga_cfg_load_loop s 0 = s := fun s => by
    rw [fpga_cfg_load_loop]
    simp
  have h1 : handle_pending_usb_setup env0 { s0 with pending_setup := true }
      req_cfg_idx0 [] = ⟨{ s0 with pending_setup := false }, false, [], []⟩ := by
    simp [handle_pending_usb_setup, req_cfg_idx0, hload, fpga_reset,
      iobuf_set_voltage, write_ldo_pins, s0, cfg0, port0, BITSTREAM_ID_SIZE,
      GLASGOW_REV_A, GLASGOW_REV_B, GLASGOW_REV_C0, GLASGOW_REV_C1, GLASGOW_REV_C2,
      GLASGOW_REV_C3, IO_BUF_ALL, IO_BUF_A, IO_BUF_B,
      VENDOR_OUT, VENDOR_IN, USB_REQ_LIBFX2_PAGE_SIZE, USB_REQ_CYPRESS_EEPROM_DB,
      USB_REQ_EEPROM, USB_REQ_REGISTER, USB_REQ_STATUS, USB_REQ_FPGA_CFG,
      USB_REQ_BITSTREAM_ID, USB_REQ_IO_VOLT, USB_REQ_SENSE_VOLT, USB_REQ_ALERT_VOLT,
      USB_REQ_POLL_ALERT, USB_REQ_IOBUF_ENABLE, USB_REQ_LIMIT_VOLT, USB_REQ_PULL,
      USB_REQ_API_LEVEL, USB_REQ_GET_MS_DESCRIPTOR]
  rw [h1]
  exact ⟨rfl, rfl, rfl⟩

/-- C7 (amended): the FPGA_READY bit of a status read always mirrors the
live CDONE line, so after a Ready start it reads set and after a Faulted
start it reads clear. A Faulted start latches ERROR only on the boot
auto-load path; the host-commanded start (image-identifier set) signals a
Faulted start by stalling the request and leaves the status latch
unchanged, while a Ready start stores the supplied identifier. -/
theorem c7_start_readiness_amended (env : Env) (s : FwState) (req : UsbReq)
    (ep0 : List Nat) (benv : BootEnv) (g0 : GlasgowConfig) (pA0 pB0 : PortState)
    (hty : req.bmRequestType = VENDOR_OUT) (hrq : req.bRequest = USB_REQ_BITSTREAM_ID)
    (hlen : req.wLength = BITSTREAM_ID_SIZE)
    (hs : s.status < 8) (hb1 : s.status &&& 2 = 0)
    (hrd : ∀ c a l, env.eeprom_read_ok c a l = true)
    (hsz : 0 < (config_fixup (config_init benv g0)).bitstream_size) :
    (s.cdone = false →
      (handle_pending_usb_setup env s req ep0).stalled = true ∧
      (handle_pending_usb_setup env s req ep0).st.status = s.status) ∧
    (s.cdone = true →
      (handle_pending_usb_setup env s req ep0).stalled = false ∧
      (handle_pending_usb_setup env s req ep0).st.glasgow_config.bitstream_id =
        ep0.take BITSTREAM_ID_SIZE ∧
      (handle_pending_usb_setup env s req ep0).st.status = s.status) ∧
    (((handle_pending_usb_setup env s req_status ep0).host_bytes.getD 0 0).testBit 1 =
      s.cdone) ∧
    ((main_boot benv env g0 pA0 pB0 false).1.status.testBit 0 = true ∧
     (main_boot benv env g0 pA0 pB0 false).1.cdone = false) := by
  have hand : (64 : Nat) &&& 128 = 0 := by decide
  refine ⟨fun hcd => ?_, fun hcd => ?_, ?_, ?_⟩
  · simp [handle_pending_usb_setup, hty, hrq, hlen, fpga_start, fpga_is_ready, hcd,
      hand, BITSTREAM_ID_SIZE,
      VENDOR_OUT, VENDOR_IN, USB_REQ_LIBFX2_PAGE_SIZE, USB_REQ_CYPRESS_EEPROM_DB,
      USB_REQ_EEPROM, USB_REQ_REGISTER, USB_REQ_STATUS, USB_REQ_FPGA_CFG,
      USB_REQ_BITSTREAM_ID, USB_REQ_IO_VOLT, USB_REQ_SENSE_VOLT, USB_REQ_ALERT_VOLT,
      USB_REQ_POLL_ALERT, USB_REQ_IOBUF_ENABLE, USB_REQ_LIMIT_VOLT, USB_REQ_PULL,
      USB_REQ_API_LEVEL, USB_REQ_GET_MS_DESCRIPTOR]
  · simp [handle_pending_usb_setup, hty, hrq, hlen, fpga_start, fpga_is_ready, hcd,
      hand, BITSTREAM_ID_SIZE,
      VENDOR_OUT, VENDOR_IN, USB_REQ_LIBFX2_PAGE_SIZE, USB_REQ_CYPRESS_EEPROM_DB,
      USB_REQ_EEPROM, USB_REQ_REGISTER, USB_REQ_STATUS, USB_REQ_FPGA_CFG,
      USB_REQ_BITSTREAM_ID, USB_REQ_IO_VOLT, USB_REQ_SENSE_VOLT, USB_REQ_ALERT_VOLT,
      USB_REQ_POLL_ALERT, USB_REQ_IOBUF_ENABLE, USB_REQ_LIMIT_VOLT, USB_REQ_PULL,
      USB_REQ_API_LEVEL, USB_REQ_GET_MS_DESCRIPTOR]
  · have key : ∀ x : Nat, x < 8 → x &&& 2 = 0 → ∀ c : Bool,
        (u8 (x ||| (if c then 2 else 0))).testBit 1 = c := by
      intro x hx
      interval_cases x <;> decide
    have hd : (handle_pending_usb_setup env s req_status ep0).host_bytes =
        [u8 (s.status ||| (if fpga_is_ready s then ST_FPGA_RDY else 0))] := by
      simp [handle_pending_usb_setup, req_status, u8, ST_FPGA_RDY, fpga_is_ready,
        VENDOR_OUT, VENDOR_IN, USB_REQ_LIBFX2_PAGE_SIZE, USB_REQ_CYPRESS_EEPROM_DB,
        USB_REQ_EEPROM, USB_REQ_REGISTER, USB_REQ_STATUS, USB_REQ_FPGA_CFG,
        USB_REQ_BITSTREAM_ID, USB_REQ_IO_VOLT, USB_REQ_SENSE_VOLT, USB_REQ_ALERT_VOLT,
        USB_REQ_POLL_ALERT, USB_REQ_IOBUF_ENABLE, USB_REQ_LIMIT_VOLT, USB_REQ_PULL,
        USB_REQ_API_LEVEL, USB_REQ_GET_MS_DESCRIPTOR]
    rw [hd]
    simpa [fpga_is_ready, ST_FPGA_RDY] using key s.status hs hb1 s.cdone
  · have hloop := autoload_loop_all_ok env hrd
    have hpre : (boot_pre benv env g0 pA0 pB0 false).cdone = false := by
      simp only [boot_pre, iobuf_init_dac_ldo, latch_status_bit]
      split_ifs <;> rfl
    have hrcd := (fpga_reset_frame env (boot_pre benv env g0 pA0 pB0 false)).1
    simp only [main_boot]
    rw [if_pos hsz]
    simp only [hloop]
    simp [fpga_start, fpga_is_ready, hrcd, hpre, latch_status_bit, ST_ERROR,
      Nat.testBit_or]

/-- Closed instance of `c7_start_readiness_amended`: with CDONE low, a
host-commanded start stalls without latching ERROR, while the boot
auto-load of a flashed 100-byte image latches ERROR. -/
theorem c7_start_readiness_amended_witness :
    s0.cdone = false ∧
    0 < (config_fixup (config_init benv_flashed cfg0)).bitstream_size ∧
    ((handle_pending_usb_setup env0 s0 req_id_set []).stalled = true ∧
     (handle_pending_usb_setup env0 s0 req_id_set []).st.status = s0.status) ∧
    ((main_boot benv_flashed env0 cfg0 port0 port0 false).1.status.testBit 0 = true ∧
     (main_boot benv_flashed env0 cfg0 port0 port0 false).1.cdone = false) :=
  ⟨rfl, by decide,
   (c7_start_readiness_amended env0 s0 req_id_set [] benv_flashed cfg0 port0 port0
      rfl rfl rfl (by decide) (by decide) (fun _ _ _ => rfl) (by decide)).1 rfl,
   (c7_start_readiness_amended env0 s0 req_id_set [] benv_flashed cfg0 port0 port0
      rfl rfl rfl (by decide) (by decide) (fun _ _ _ => rfl) (by decide)).2.2.2⟩

/-- C4: the alert interrupt handler only disarms detection and performs no
I/O; the main-loop handler then latches the sticky ALERT bit, polls which
ports alerted, drops exactly those ports' output voltage to zero (their
LDOs are disabled, so a voltage read returns 0) and re-arms detection,
leaving non-alerted ports untouched; a subsequent alert-acknowledge
clears only the ALERT bit (ERROR and the LDO state survive), so the
voltage stays 0 until explicitly re-set. -/
theorem c4_alert_supervisor (env : Env) (s s2 : FwState) (ep0 : List Nat)
    (hi2c : env.i2c_ok = true) (hs2 : s2.status < 8) :
    (isr_IE0 s = { s with armed_alert := false }) ∧
    ((handle_pending_alert env s).status = s.status ||| ST_ALERT ∧
     (handle_pending_alert env s).armed_alert = true ∧
     (s.portA.adc_alerted = true →
        (handle_pending_alert env s).portA.ldo_on = false ∧
        iobuf_get_voltage env (handle_pending_alert env s) IO_BUF_A = some 0) ∧
     (s.portA.adc_alerted = false →
        (handle_pending_alert env s).portA = s.portA) ∧
     (s.portB.adc_alerted = true →
        (handle_pending_alert env s).portB.ldo_on = false ∧
        iobuf_get_voltage env (handle_pending_alert env s) IO_BUF_B = some 0) ∧
     (s.portB.adc_alerted = false →
        (handle_pending_alert env s).portB = s.portB)) ∧
    ((handle_pending_usb_setup env s2 req_poll_alert ep0).st.status.testBit 2 = false ∧
     (handle_pending_usb_setup env s2 req_poll_alert ep0).st.status.testBit 0 =
        s2.status.testBit 0 ∧
     (handle_pending_usb_setup env s2 req_poll_alert ep0).st.portA.ldo_on =
        s2.portA.ldo_on ∧
     (handle_pending_usb_setup env s2 req_poll_alert ep0).st.portB.ldo_on =
        s2.portB.ldo_on ∧
     (s2.portA.ldo_on = false →
        iobuf_get_voltage env (handle_pending_usb_setup env s2 req_poll_alert ep0).st
          IO_BUF_A = some 0)) := by
  have hm01 : (0 : Nat) ||| 1 = 1 := by decide
  have hm02 : (0 : Nat) ||| 2 = 2 := by decide
  have hm12 : (1 : Nat) ||| 2 = 3 := by decide
  refine ⟨rfl, ?_, ?_⟩
  · rcases hA : s.portA.adc_alerted <;> rcases hB : s.portB.adc_alerted <;>
      simp [handle_pending_alert, latch_status_bit, iobuf_poll_alert_adc081c,
        adc081c_buffers, poll_alert_loop, hi2c, hA, hB, port_of, set_port,
        IO_BUF_A, IO_BUF_B, ST_ALERT, ADC081_BIT_ALERT_PIN_EN, hm01, hm02, hm12,
        iobuf_set_voltage, write_ldo_pins, iobuf_get_voltage, dac_start,
        dac_start_addr, I2C_ADDR_IOA_DAC, I2C_ADDR_IOB_DAC]
  · have hd : handle_pending_usb_setup env s2 req_poll_alert ep0 =
        ⟨reset_status_bit
            (iobuf_poll_alert_adc081c env { s2 with pending_setup := false } true).2.2
            ST_ALERT,
         false,
         [u8 (iobuf_poll_alert_adc081c env { s2 with pending_setup := false } true).2.1],
         []⟩ := by
      simp [handle_pending_usb_setup, req_poll_alert, ST_ALERT,
        VENDOR_OUT, VENDOR_IN, USB_REQ_LIBFX2_PAGE_SIZE, USB_REQ_CYPRESS_EEPROM_DB,
        USB_REQ_EEPROM, USB_REQ_REGISTER, USB_REQ_STATUS, USB_REQ_FPGA_CFG,
        USB_REQ_BITSTREAM_ID, USB_REQ_IO_VOLT, USB_REQ_SENSE_VOLT, USB_REQ_ALERT_VOLT,
        USB_REQ_POLL_ALERT, USB_REQ_IOBUF_ENABLE, USB_REQ_LIMIT_VOLT, USB_REQ_PULL,
        USB_REQ_API_LEVEL, USB_REQ_GET_MS_DESCRIPTOR]
    obtain ⟨hst, hA, hAd, hB, hBd, hgc, hbi, hpend⟩ :=
      poll_alert_frame env true { s2 with pending_setup := false }
    have key : ∀ x : Nat, x < 8 →
        ((if x &&& 4 ≠ 0 then x &&& (255 ^^^ 4) else x).testBit 2 = false ∧
         (if x &&& 4 ≠ 0 then x &&& (255 ^^^ 4) else x).testBit 0 = x.testBit 0) := by
      intro x hx
      interval_cases x <;> decide
    rw [hd]
    refine ⟨?_, ?_, ?_, ?_, ?_⟩
    · rw [reset_status_bit_status, hst]
      exact (key s2.status hs2).1
    · rw [reset_status_bit_status, hst]
      exact (key s2.status hs2).2
    · rw [(reset_status_bit_frame _ _).1]
      exact hA
    · rw [(reset_status_bit_frame _ _).2.1]
      exact hB
    · intro hoff
      have h1 : (reset_status_bit
          (iobuf_poll_alert_adc081c env { s2 with pending_setup := false } true).2.2
          ST_ALERT).portA.ldo_on = false := by
        rw [(reset_status_bit_frame _ _).1]
        rw [hA]
        exact hoff
      simp [iobuf_get_voltage, IO_BUF_A, h1]

/-- Closed instance of `c4_alert_supervisor`: a trip on port A while it is
commanded at 3300 mV drops its voltage reading to 0 and latches ALERT; the
acknowledge then clears ALERT while the voltage stays 0. -/
theorem c4_alert_supervisor_witness :
    env0.i2c_ok = true ∧
    (handle_pending_alert env0 s_tripped).status = s_tripped.status ||| ST_ALERT ∧
    (handle_pending_alert env0 s_tripped).armed_alert = true ∧
    iobuf_get_voltage env0 (handle_pending_alert env0 s_tripped) IO_BUF_A = some 0 ∧
    (handle_pending_usb_setup env0 (handle_pending_alert env0 s_tripped)
        req_poll_alert []).st.status.testBit 2 = false ∧
    (handle_pending_usb_setup env0 (handle_pending_alert env0 s_tripped)
        req_poll_alert []).st.portA.ldo_on =
      (handle_pending_alert env0 s_tripped).portA.ldo_on ∧
    (s_tripped.portA.adc_alerted = true ∧
     iobuf_get_voltage env0
        (handle_pending_usb_setup env0 (handle_pending_alert env0 s_tripped)
          req_poll_alert []).st IO_BUF_A = some 0) := by
  have T := c4_alert_supervisor env0 s_tripped (handle_pending_alert env0 s_tripped) []
    rfl (by decide)
  exact ⟨rfl, T.2.1.1, T.2.1.2.1, (T.2.1.2.2.1 rfl).2, T.2.2.1, T.2.2.2.2.1,
    rfl, T.2.2.2.2.2.2 (by decide)⟩

/-- Recording a voltage ceiling does not touch the port hardware. -/
theorem record_voltage_limit_frame (s : FwState) (idx mv : Nat) :
    (record_voltage_limit s idx mv).portA = s.portA ∧
    (record_voltage_limit s idx mv).portB = s.portB := by
  unfold record_voltage_limit
  split <;> simp

/-- Each ceiling slot is written independently of the other. -/
theorem record_voltage_limit_lim (s : FwState) (mv : Nat) :
    (record_voltage_limit s 0 mv).glasgow_config.voltage_limit.1 = mv ∧
    (record_voltage_limit s 0 mv).glasgow_config.voltage_limit.2 =
      s.glasgow_config.voltage_limit.2 ∧
    (record_voltage_limit s 1 mv).glasgow_config.voltage_limit.2 = mv ∧
    (record_voltage_limit s 1 mv).glasgow_config.voltage_limit.1 =
      s.glasgow_config.voltage_limit.1 := by
  simp [record_voltage_limit]

/-- A port-A voltage set written out along its five paths: ceiling check,
zero-voltage disable, range check, DAC transaction, LDO enable. -/
theorem iobuf_set_voltage_A_eq (env : Env) (u : FwState) (mv : Nat) :
    iobuf_set_voltage env u IO_BUF_A mv =
      if mv > u.glasgow_config.voltage_limit.1 then (false, u)
      else if mv = 0 then (true, { u with portA.ldo_on := false })
      else if mv < MIN_VOLTAGE ∨ mv > MAX_VOLTAGE then (false, u)
      else if ¬ dac_start env IO_BUF_A false then (false, u)
      else (true, { u with
        portA := { u.portA with dac_code := mv_to_dac_code mv, ldo_on := true } }) := by
  simp only [iobuf_set_voltage, write_ldo_pins, write_dac_code, IO_BUF_A, IO_BUF_B,
    show (1 : Nat) &&& 1 = 1 from by decide, show (1 : Nat) &&& 2 = 0 from by decide]
  simp

/-- A port-B voltage set written out along its five paths. -/
theorem iobuf_set_voltage_B_eq (env : Env) (u : FwState) (mv : Nat) :
    iobuf_set_voltage env u IO_BUF_B mv =
      if mv > u.glasgow_config.voltage_limit.2 then (false, u)
      else if mv = 0 then (true, { u with portB.ldo_on := false })
      else if mv < MIN_VOLTAGE ∨ mv > MAX_VOLTAGE then (false, u)
      else if ¬ dac_start env IO_BUF_B false then (false, u)
      else (true, { u with
        portB := { u.portB with dac_code := mv_to_dac_code mv, ldo_on := true } }) := by
  simp only [iobuf_set_voltage, write_ldo_pins, write_dac_code, IO_BUF_A, IO_BUF_B,
    show (2 : Nat) &&& 1 = 0 from by decide, show (2 : Nat) &&& 2 = 2 from by decide]
  simp

/-- Setting the voltage of port A alone leaves port B, the configuration
record and the status latch untouched. -/
theorem iobuf_set_voltage_A_frame (env : Env) (s : FwState) (mv : Nat) :
    (iobuf_set_voltage env s IO_BUF_A mv).2.portB = s.portB ∧
    (iobuf_set_voltage env s IO_BUF_A mv).2.glasgow_config = s.glasgow_config := by
  rw [iobuf_set_voltage_A_eq]
  split_ifs <;> simp

/-- The effect of a port-B voltage set depends only on port B's state and
ceiling: on two states agreeing there it succeeds identically and produces
the same port-B state, and it never touches port A or the configuration
record. -/
theorem iobuf_set_voltage_B_congr (env : Env) (s t : FwState) (mv : Nat)
    (hp : t.portB = s.portB)
    (hl : t.glasgow_config.voltage_limit.2 = s.glasgow_config.voltage_limit.2) :
    (iobuf_set_voltage env t IO_BUF_B mv).1 = (iobuf_set_voltage env s IO_BUF_B mv).1 ∧
    (iobuf_set_voltage env t IO_BUF_B mv).2.portB =
      (iobuf_set_voltage env s IO_BUF_B mv).2.portB ∧
    (iobuf_set_voltage env t IO_BUF_B mv).2.portA = t.portA ∧
    (iobuf_set_voltage env t IO_BUF_B mv).2.glasgow_config = t.glasgow_config := by
  rw [iobuf_set_voltage_B_eq, iobuf_set_voltage_B_eq, hp, hl]
  split_ifs <;> simp [hp]

/-- A port-B voltage read depends only on port B's state. -/
theorem iobuf_get_voltage_B_congr (env : Env) (s t : FwState)
    (hp : t.portB = s.portB) :
    iobuf_get_voltage env t IO_BUF_B = iobuf_get_voltage env s IO_BUF_B := by
  simp [iobuf_get_voltage, IO_BUF_A, IO_BUF_B, hp]

/-- One unfolding step of the `iobuf_set_voltage_limit` buffer loop. -/
theorem set_voltage_limit_loop_cons (env : Env) (mask mv sel idx : Nat)
    (rest : List (Nat × Nat)) (s : FwState) :
    set_voltage_limit_loop env mask mv ((sel, idx) :: rest) s =
      (if mask &&& sel ≠ 0 then
        match iobuf_get_voltage env s sel with
        | none => (false, s)
        | some curr =>
          if mv < curr then
            match iobuf_set_voltage env s sel mv with
            | (false, s) => (false, s)
            | (true, s) =>
              set_voltage_limit_loop env mask mv rest (record_voltage_limit s idx mv)
          else set_voltage_limit_loop env mask mv rest (record_voltage_limit s idx mv)
      else set_voltage_limit_loop env mask mv rest s) := rfl

/-- The tail of the ceiling-set loop, which handles port B: on success it
has recorded the new ceiling for B (forcing B's voltage down first when it
was above the new ceiling) iff B is selected, and it leaves port A and
port A's ceiling alone. Stated against a base state `s` that agrees with
the loop state `t` on port B and its ceiling. -/
theorem set_voltage_limit_loop_B_spec (env : Env) (mask mv : Nat) (s t : FwState)
    (hp : t.portB = s.portB)
    (hl : t.glasgow_config.voltage_limit.2 = s.glasgow_config.voltage_limit.2)
    (hokB : (set_voltage_limit_loop env mask mv [(IO_BUF_B, 1)] t).1 = true) :
    (set_voltage_limit_loop env mask mv [(IO_BUF_B, 1)] t).2.portA = t.portA ∧
    (set_voltage_limit_loop env mask mv [(IO_BUF_B, 1)] t).2.glasgow_config.voltage_limit.1
      = t.glasgow_config.voltage_limit.1 ∧
    (mask &&& IO_BUF_B = 0 →
      (set_voltage_limit_loop env mask mv [(IO_BUF_B, 1)] t).2 = t) ∧
    (mask &&& IO_BUF_B ≠ 0 →
      (set_voltage_limit_loop env mask mv
          [(IO_BUF_B, 1)] t).2.glasgow_config.voltage_limit.2 = mv ∧
      ∃ curr, iobuf_get_voltage env s IO_BUF_B = some curr ∧
        ((mv < curr →
           (iobuf_set_voltage env s IO_BUF_B mv).1 = true ∧
           (set_voltage_limit_loop env mask mv [(IO_BUF_B, 1)] t).2.portB =
             (iobuf_set_voltage env s IO_BUF_B mv).2.portB) ∧
         (¬ mv < curr →
           (set_voltage_limit_loop env mask mv [(IO_BUF_B, 1)] t).2.portB =
             t.portB))) := by
  by_cases hB : mask &&& IO_BUF_B ≠ 0
  · rw [set_voltage_limit_loop_cons, if_pos hB,
      iobuf_get_voltage_B_congr env s t hp] at hokB ⊢
    rcases hg : iobuf_get_voltage env s IO_BUF_B with _ | curr
    · rw [hg] at hokB
      simp at hokB
    · rw [hg] at hokB
      dsimp only at hokB ⊢
      by_cases hcmp : mv < curr
      · rw [if_pos hcmp] at hokB ⊢
        obtain ⟨e1, e2, e3, e4⟩ := iobuf_set_voltage_B_congr env s t mv hp hl
        rcases hst : iobuf_set_voltage env t IO_BUF_B mv with ⟨okt, t1⟩
        rw [hst] at e1 e2 e3 e4 hokB
        cases okt
        · simp [set_voltage_limit_loop] at hokB
        · simp only [set_voltage_limit_loop]
          refine ⟨?_, ?_, fun hc => absurd hc hB, fun _ => ⟨?_, curr, rfl, ?_, ?_⟩⟩
          · rw [(record_voltage_limit_frame t1 1 mv).1]
            exact e3
          · rw [(record_voltage_limit_lim t1 mv).2.2.2, e4]
          · exact (record_voltage_limit_lim t1 mv).2.2.1
          · intro hfr
            refine ⟨e1.symm, ?_⟩
            rw [(record_voltage_limit_frame t1 1 mv).2]
            exact e2
          · intro hfr
            exact absurd hcmp hfr
      · rw [if_neg hcmp] at hokB ⊢
        simp only [set_voltage_limit_loop]
        refine ⟨?_, ?_, fun hc => absurd hc hB, fun _ => ⟨?_, curr, rfl, ?_, ?_⟩⟩
        · exact (record_voltage_limit_frame t 1 mv).1
        · exact (record_voltage_limit_lim t mv).2.2.2
        · exact (record_voltage_limit_lim t mv).2.2.1
        · intro hfr
          exact absurd hfr hcmp
        · intro hfr
          exact (record_voltage_limit_frame t 1 mv).2
  · rw [set_voltage_limit_loop_cons, if_neg hB] at hokB ⊢
    simp only [set_voltage_limit_loop]
    simp_all

/-- C5: a voltage-set request above the recorded ceiling of any selected
port fails without any state change; a successful ceiling-set records the
new ceiling exactly for the selected ports, and for each selected port
whose present voltage reading is above the new ceiling it first forces
that port down by issuing the same voltage-set the host would (commanding
exactly the new ceiling) and only then records the ceiling, leaving
unselected ports and their ceilings untouched. -/
theorem c5_voltage_ceiling (env : Env) (s : FwState) (mask mv : Nat) :
    ((mask &&& IO_BUF_A ≠ 0 ∧ mv > s.glasgow_config.voltage_limit.1) ∨
     (mask &&& IO_BUF_B ≠ 0 ∧ mv > s.glasgow_config.voltage_limit.2) →
      iobuf_set_voltage env s mask mv = (false, s)) ∧
    ((iobuf_set_voltage_limit env s mask mv).1 = true →
      (mask &&& IO_BUF_A ≠ 0 →
        (iobuf_set_voltage_limit env s mask mv).2.glasgow_config.voltage_limit.1 = mv ∧
        ∃ curr, iobuf_get_voltage env s IO_BUF_A = some curr ∧
          ((mv < curr →
             (iobuf_set_voltage env s IO_BUF_A mv).1 = true ∧
             (iobuf_set_voltage_limit env s mask mv).2.portA =
               (iobuf_set_voltage env s IO_BUF_A mv).2.portA) ∧
           (¬ mv < curr →
             (iobuf_set_voltage_limit env s mask mv).2.portA = s.portA))) ∧
      (mask &&& IO_BUF_A = 0 →
        (iobuf_set_voltage_limit env s mask mv).2.portA = s.portA ∧
        (iobuf_set_voltage_limit env s mask mv).2.glasgow_config.voltage_limit.1 =
          s.glasgow_config.voltage_limit.1) ∧
      (mask &&& IO_BUF_B ≠ 0 →
        (iobuf_set_voltage_limit env s mask mv).2.glasgow_config.voltage_limit.2 = mv ∧
        ∃ curr, iobuf_get_voltage env s IO_BUF_B = some curr ∧
          ((mv < curr →
             (iobuf_set_voltage env s IO_BUF_B mv).1 = true ∧
             (iobuf_set_voltage_limit env s mask mv).2.portB =
               (iobuf_set_voltage env s IO_BUF_B mv).2.portB) ∧
           (¬ mv < curr →
             (iobuf_set_voltage_limit env s mask mv).2.portB = s.portB))) ∧
      (mask &&& IO_BUF_B = 0 →
        (iobuf_set_voltage_limit env s mask mv).2.portB = s.portB ∧
        (iobuf_set_voltage_limit env s mask mv).2.glasgow_config.voltage_limit.2 =
          s.glasgow_config.voltage_limit.2)) := by
  constructor
  · rintro (⟨h1, h2⟩ | ⟨h1, h2⟩)
    · unfold iobuf_set_voltage
      rw [if_pos ⟨h1, h2⟩]
    · unfold iobuf_set_voltage
      by_cases hc1 : mask &&& IO_BUF_A ≠ 0 ∧ mv > s.glasgow_config.voltage_limit.1
      · rw [if_pos hc1]
      · rw [if_neg hc1, if_pos ⟨h1, h2⟩]
  · intro hok
    by_cases hrange : mv ≠ 0 ∧ (mv < MIN_VOLTAGE ∨ mv > MAX_VOLTAGE)
    · unfold iobuf_set_voltage_limit at hok
      rw [if_pos hrange] at hok
      simp at hok
    · have hlim : iobuf_set_voltage_limit env s mask mv =
          set_voltage_limit_loop env mask mv dac_ldo_buffers s := by
        unfold iobuf_set_voltage_limit
        rw [if_neg hrange]
      rw [hlim] at hok ⊢
      rw [show dac_ldo_buffers = (IO_BUF_A, 0) :: [(IO_BUF_B, 1)] from rfl,
        set_voltage_limit_loop_cons] at hok ⊢
      by_cases hA : mask &&& IO_BUF_A ≠ 0
      · rw [if_pos hA] at hok ⊢
        rcases hgA : iobuf_get_voltage env s IO_BUF_A with _ | curr
        · rw [hgA] at hok
          simp at hok
        · rw [hgA] at hok
          dsimp only at hok ⊢
          by_cases hcmp : mv < curr
          · rw [if_pos hcmp] at hok ⊢
            rcases hsA : iobuf_set_voltage env s IO_BUF_A mv with ⟨okA, s1⟩
            rw [hsA] at hok
            have hfrA := iobuf_set_voltage_A_frame env s mv
            rw [hsA] at hfrA
            cases okA
            · simp at hok
            · dsimp only at hok ⊢
              have hp : (record_voltage_limit s1 0 mv).portB = s.portB := by
                rw [(record_voltage_limit_frame s1 0 mv).2]
                exact hfrA.1
              have hl : (record_voltage_limit s1 0 mv).glasgow_config.voltage_limit.2 =
                  s.glasgow_config.voltage_limit.2 := by
                rw [(record_voltage_limit_lim s1 mv).2.1, hfrA.2]
              obtain ⟨b1, b2, b3, b4⟩ :=
                set_voltage_limit_loop_B_spec env mask mv s
                  (record_voltage_limit s1 0 mv) hp hl hok
              refine ⟨fun _ => ⟨?_, curr, rfl, fun _ => ⟨rfl, ?_⟩,
                  fun hc => absurd hcmp hc⟩,
                fun hc => absurd hc hA, fun hB => ?_, fun hB => ?_⟩
              · rw [b2, (record_voltage_limit_lim s1 mv).1]
              · rw [b1, (record_voltage_limit_frame s1 0 mv).1]
              · obtain ⟨c1, c2, c3, c4⟩ := b4 hB
                exact ⟨c1, c2, c3, c4.1, fun hf => (c4.2 hf).trans hp⟩
              · rw [b3 hB, hp, hl]
                exact ⟨rfl, rfl⟩
          · rw [if_neg hcmp] at hok ⊢
            have hp : (record_voltage_limit s 0 mv).portB = s.portB :=
              (record_voltage_limit_frame s 0 mv).2
            have hl : (record_voltage_limit s 0 mv).glasgow_config.voltage_limit.2 =
                s.glasgow_config.voltage_limit.2 :=
              (record_voltage_limit_lim s mv).2.1
            obtain ⟨b1, b2, b3, b4⟩ :=
              set_voltage_limit_loop_B_spec env mask mv s
                (record_voltage_limit s 0 mv) hp hl hok
            refine ⟨fun _ => ⟨?_, curr, rfl, fun hf => absurd hf hcmp,
                fun _ => ?_⟩,
              fun hc => absurd hc hA, fun hB => ?_, fun hB => ?_⟩
            · rw [b2, (record_voltage_limit_lim s mv).1]
            · rw [b1, (record_voltage_limit_frame s 0 mv).1]
            · obtain ⟨c1, c2, c3, c4⟩ := b4 hB
              exact ⟨c1, c2, c3, c4.1, fun hf => (c4.2 hf).trans hp⟩
            · rw [b3 hB, hp, hl]
              exact ⟨rfl, rfl⟩
      · rw [if_neg hA] at hok ⊢
        obtain ⟨b1, b2, b3, b4⟩ :=
          set_voltage_limit_loop_B_spec env mask mv s s rfl rfl hok
        refine ⟨fun hc => absurd hc hA, fun _ => ⟨b1, b2⟩, fun hB => b4 hB,
          fun hB => ?_⟩
        rw [b3 hB]
        exact ⟨rfl, rfl⟩

/-- Closed instance of `c5_voltage_ceiling`: with port A commanded at
3300 mV under a 3300 mV ceiling, a 3400 mV set request fails without any
state change, and a ceiling-set to 1800 mV succeeds, forces port A down by
commanding exactly 1800 mV, and records the 1800 mV ceiling. -/
theorem c5_voltage_ceiling_witness :
    ((1 : Nat) &&& IO_BUF_A ≠ 0 ∧ 3400 > s_driven.glasgow_config.voltage_limit.1) ∧
    iobuf_set_voltage env0 s_driven 1 3400 = (false, s_driven) ∧
    (iobuf_set_voltage_limit env0 s_driven 1 1800).1 = true ∧
    ((iobuf_set_voltage_limit env0 s_driven 1 1800).2.glasgow_config.voltage_limit.1
        = 1800 ∧
     ∃ curr, iobuf_get_voltage env0 s_driven IO_BUF_A = some curr ∧
       ((1800 < curr →
          (iobuf_set_voltage env0 s_driven IO_BUF_A 1800).1 = true ∧
          (iobuf_set_voltage_limit env0 s_driven 1 1800).2.portA =
            (iobuf_set_voltage env0 s_driven IO_BUF_A 1800).2.portA) ∧
        (¬ 1800 < curr →
          (iobuf_set_voltage_limit env0 s_driven 1 1800).2.portA = s_driven.portA))) :=
  ⟨⟨by decide, by decide⟩,
   (c5_voltage_ceiling env0 s_driven 1 3400).1 (Or.inl ⟨by decide, by decide⟩),
   by decide,
   ((c5_voltage_ceiling env0 s_driven 1 1800).2 (by decide)).1 (by decide)⟩

end Glasgow
